import Mathlib

/-!
Shallow embedding of the reading-list engine
(`src/final/readinglist/readinglist/models/readinglist_model.py`, class
`ReadingListModel`), together with the overloaded length method of the
near-duplicate module
(`src/final/reading_list/reading_list/models/reading_list_model.py`).

Conventions of the embedding:
* Python `ValueError` raise sites are represented by the inductive `PyErr`,
  one constructor per distinct message template, carrying the formatted-in
  values.
* A Python method call is a function `Ctx → args → ModelState → PyResult α`:
  it returns either `.ok s' v` (normal return, post state `s'`) or
  `.exn s' e` (exception `e` propagating, with whatever side effects had
  already happened recorded in `s'`) — Python exceptions do not roll back
  state.
* `time.time()` is modelled by `Ctx.now`, frozen for the duration of one
  public call.
* Arguments that Python would coerce with `int(...)` are `Option Int`:
  `none` stands for an unparseable value, `some n` for one parsing to `n`.
* The external collaborators that are not in the repository snapshot
  (`Books.get_book_by_id`, `Books.update_read_count`, `get_random`) are
  modelled from the spec; each carries a doc comment saying so.  The
  fields `dbFetches` and `readIncrements` instrument the model: they log
  every store fetch and every read-count increment, so that cache-hit and
  visit-once properties are statable.
-/

namespace ReadingList

/-- Item snapshot held by the store and the cache (spec §3: id, author,
title, year, genre, page length; `length` is the page count). -/
structure Books where
  id : Int
  author : String
  title : String
  year : Int
  genre : String
  length : Nat
deriving DecidableEq, Repr

/-- External context of one public call: the store contents, the randomness
provider, and the current wall-clock instant. -/
structure Ctx where
  db : Int → Option Books
  get_random : Nat → Int
  now : Nat

/-- The mutable state of a `ReadingListModel` instance, plus the two
instrumentation logs (`dbFetches`, `readIncrements`) observing calls to the
external store. -/
structure ModelState where
  current_selection_number : Int
  reading_list : List Int
  book_cache : List (Int × Books)
  ttl : List (Int × Nat)
  ttl_seconds : Nat
  dbFetches : List Int
  readIncrements : List Int
deriving DecidableEq, Repr

/-- Python dict read: first binding wins (insertions are consed in front). -/
def dictGet {β : Type} (d : List (Int × β)) (k : Int) : Option β :=
  (d.find? (fun p => p.1 == k)).map (fun p => p.2)

/-- Python dict write: bind `k` to `v`, shadowing any previous binding. -/
def dictSet {β : Type} (d : List (Int × β)) (k : Int) (v : β) : List (Int × β) :=
  (k, v) :: d.filter (fun p => p.1 != k)

/-- One constructor per distinct `ValueError` message template of the
module (the formatted-in id or raw argument is the payload). -/
inductive PyErr where
  /-- message "Reading list is empty" (check_if_empty) -/
  | emptyList : PyErr
  /-- message "Invalid book id: ..." (validate_book_id) -/
  | invalidBookId : Option Int → PyErr
  /-- message "Book with id ... not found in reading list" (validate_book_id) -/
  | idNotInReadingList : Int → PyErr
  /-- message "Book with id ... not found in database" (validate_book_id) -/
  | validateDbNotFound : Int → PyErr
  /-- message "Book ID ... not found in database" (_get_book_from_cache_or_db) -/
  | dbNotFound : Int → PyErr
  /-- the store adapter's own "not found" error (Books.get_book_by_id);
  always caught and wrapped by `_get_book_from_cache_or_db` -/
  | storeNotFound : Int → PyErr
  /-- message "Book with ID ... already exists in the reading list" (add) -/
  | alreadyInList : Int → PyErr
  /-- message "Book with ID ... not found in the reading list"
  (remove_book_by_book_id, after validation) -/
  | removeNotFound : Int → PyErr
  /-- message "Cannot swap a book with itself: ..." (swap_books_in_reading_list) -/
  | selfSwap : Int → PyErr
  /-- message "Invalid selection number: ..." (validate_selection_number) -/
  | invalidSelection : Option Int → PyErr
  /-- the `ValueError` of Python `list.remove(x)` when `x` is absent -/
  | listRemoveMissing : Int → PyErr
deriving DecidableEq, Repr

/-- Outcome of a call: normal return or propagating exception, in both
cases with the post state (side effects are never rolled back). -/
inductive PyResult (α : Type) where
  | ok : ModelState → α → PyResult α
  | exn : ModelState → PyErr → PyResult α
deriving DecidableEq, Repr

def PyResult.stateOf {α : Type} : PyResult α → ModelState
  | .ok s _ => s
  | .exn s _ => s

def PyResult.isOk {α : Type} : PyResult α → Bool
  | .ok _ _ => true
  | .exn _ _ => false

def PyResult.errOf {α : Type} : PyResult α → Option PyErr
  | .ok _ _ => none
  | .exn _ e => some e

/-- `__init__`: empty list, selection 1, empty caches; `ttl_env` is the
value of the TTL environment variable (default 60). -/
def initState (ttl_env : Nat) : ModelState :=
  { current_selection_number := 1
    reading_list := []
    book_cache := []
    ttl := []
    ttl_seconds := ttl_env
    dbFetches := []
    readIncrements := [] }

/-- Modelled from the spec: the Store Adapter `fetchById(id) → Item | NotFound`
(`Books.get_book_by_id` lives in `book_model.py`, outside the snapshot).
Every call is logged in `dbFetches`; "not found" raises. -/
def Books.get_book_by_id (ctx : Ctx) (book_id : Int) (s : ModelState) : PyResult Books :=
  let s1 := { s with dbFetches := s.dbFetches ++ [book_id] }
  match ctx.db book_id with
  | some book => .ok s1 book
  | none => .exn s1 (.storeNotFound book_id)

/-- `_get_book_from_cache_or_db`: return the cached snapshot while
`self._ttl.get(book_id, 0) > now`, otherwise fetch from the DB, cache it
with expiry `now + ttl_seconds`, and return it; a DB failure is wrapped as
"Book ID ... not found in database". -/
def _get_book_from_cache_or_db (ctx : Ctx) (book_id : Int) (s : ModelState) : PyResult Books :=
  let hit : Option Books :=
    match dictGet s.book_cache book_id with
    | some cached =>
        if (dictGet s.ttl book_id).getD 0 > ctx.now then some cached else none
    | none => none
  match hit with
  | some cached => .ok s cached
  | none =>
    match Books.get_book_by_id ctx book_id s with
    | .exn s1 _ => .exn s1 (.dbNotFound book_id)
    | .ok s1 book =>
        .ok { s1 with book_cache := dictSet s1.book_cache book_id book
                      ttl := dictSet s1.ttl book_id (ctx.now + s1.ttl_seconds) } book

/-- `check_if_empty`: raise "Reading list is empty" when the list is empty. -/
def check_if_empty (s : ModelState) : PyResult Unit :=
  if s.reading_list = [] then .exn s .emptyList else .ok s ()

/-- `validate_book_id(book_id, check_in_reading_list=True)`: parse as int,
reject negatives; optionally require membership in the reading list; then
always resolve via cache/DB, wrapping a failure as "not found in database". -/
def validate_book_id (ctx : Ctx) (book_id : Option Int) (check_in_reading_list : Bool)
    (s : ModelState) : PyResult Int :=
  match book_id with
  | none => .exn s (.invalidBookId none)
  | some bid =>
    if bid < 0 then .exn s (.invalidBookId (some bid))
    else if check_in_reading_list ∧ bid ∉ s.reading_list then
      .exn s (.idNotInReadingList bid)
    else
      match _get_book_from_cache_or_db ctx bid s with
      | .exn s1 _ => .exn s1 (.validateDbNotFound bid)
      | .ok s1 _ => .ok s1 bid

/-- `validate_selection_number`: parse as int and require
`1 <= n <= get_reading_list_length()`. -/
def validate_selection_number (selection_number : Option Int) (s : ModelState) :
    PyResult Int :=
  match selection_number with
  | none => .exn s (.invalidSelection none)
  | some n =>
    if 1 ≤ n ∧ n ≤ (s.reading_list.length : Int) then .ok s n
    else .exn s (.invalidSelection (some n))

/-- `get_reading_list_length` (readinglist module): `len(self.reading_list)`. -/
def get_reading_list_length (s : ModelState) : PyResult Nat :=
  .ok s s.reading_list.length

/-- Python `list.remove(x)`: drop the first occurrence of `x`, `ValueError`
when absent (`none` here; callers raise `.listRemoveMissing`). -/
def list_remove (l : List Int) (x : Int) : Option (List Int) :=
  if x ∈ l then some (l.erase x) else none

/-- `add_book_to_reading_list`: validate the id (membership not required),
reject duplicates, resolve the book via cache/DB, append `book.id`. -/
def add_book_to_reading_list (ctx : Ctx) (book_id : Option Int) (s : ModelState) :
    PyResult Unit :=
  match validate_book_id ctx book_id false s with
  | .exn s1 e => .exn s1 e
  | .ok s1 bid =>
    if bid ∈ s1.reading_list then .exn s1 (.alreadyInList bid)
    else
      match _get_book_from_cache_or_db ctx bid s1 with
      | .exn s2 e => .exn s2 e
      | .ok s2 book => .ok { s2 with reading_list := s2.reading_list ++ [book.id] } ()

/-- `remove_book_by_book_id`: require non-empty, validate the id (with
membership), re-check membership (raising "Book with ID ... not found in
the reading list"), then `list.remove`. -/
def remove_book_by_book_id (ctx : Ctx) (book_id : Option Int) (s : ModelState) :
    PyResult Unit :=
  match check_if_empty s with
  | .exn s1 e => .exn s1 e
  | .ok s1 _ =>
    match validate_book_id ctx book_id true s1 with
    | .exn s2 e => .exn s2 e
    | .ok s2 bid =>
      if bid ∉ s2.reading_list then .exn s2 (.removeNotFound bid)
      else
        match list_remove s2.reading_list bid with
        | none => .exn s2 (.listRemoveMissing bid)
        | some l => .ok { s2 with reading_list := l } ()

/-- `remove_book_by_selection_number`: require non-empty, validate the
selection number, `del self.reading_list[selection_number - 1]`. -/
def remove_book_by_selection_number (ctx : Ctx) (selection_number : Option Int)
    (s : ModelState) : PyResult Unit :=
  match check_if_empty s with
  | .exn s1 e => .exn s1 e
  | .ok s1 _ =>
    match validate_selection_number selection_number s1 with
    | .exn s2 e => .exn s2 e
    | .ok s2 n =>
      .ok { s2 with reading_list := s2.reading_list.eraseIdx (n - 1).toNat } ()

/-- `clear_reading_list`: the emptiness check is wrapped in try/except (an
empty list is only logged), then the list is cleared unconditionally. -/
def clear_reading_list (ctx : Ctx) (s : ModelState) : PyResult Unit :=
  match check_if_empty s with
  | .ok s1 _ => .ok { s1 with reading_list := [] } ()
  | .exn s1 _ => .ok { s1 with reading_list := [] } ()

/-- The list comprehension of `get_all_books`: fetch every id in order,
fail-fast, keeping cache updates made before a failure. -/
def get_books_loop (ctx : Ctx) (ids : List Int) (s : ModelState) :
    PyResult (List Books) :=
  match ids with
  | [] => .ok s []
  | i :: rest =>
    match _get_book_from_cache_or_db ctx i s with
    | .exn s1 e => .exn s1 e
    | .ok s1 b =>
      match get_books_loop ctx rest s1 with
      | .exn s2 e => .exn s2 e
      | .ok s2 bs => .ok s2 (b :: bs)

/-- `get_all_books`: require non-empty, fetch every listed book in order. -/
def get_all_books (ctx : Ctx) (s : ModelState) : PyResult (List Books) :=
  match check_if_empty s with
  | .exn s1 e => .exn s1 e
  | .ok s1 _ => get_books_loop ctx s1.reading_list s1

/-- `get_book_by_book_id`: require non-empty, validate the id, fetch it. -/
def get_book_by_book_id (ctx : Ctx) (book_id : Option Int) (s : ModelState) :
    PyResult Books :=
  match check_if_empty s with
  | .exn s1 e => .exn s1 e
  | .ok s1 _ =>
    match validate_book_id ctx book_id true s1 with
    | .exn s2 e => .exn s2 e
    | .ok s2 bid => _get_book_from_cache_or_db ctx bid s2

/-- `get_book_by_selection_number`: require non-empty, validate the
selection number, fetch the id at index `selection_number - 1`. -/
def get_book_by_selection_number (ctx : Ctx) (selection_number : Option Int)
    (s : ModelState) : PyResult Books :=
  match check_if_empty s with
  | .exn s1 e => .exn s1 e
  | .ok s1 _ =>
    match validate_selection_number selection_number s1 with
    | .exn s2 e => .exn s2 e
    | .ok s2 n =>
      _get_book_from_cache_or_db ctx (s2.reading_list.getD (n - 1).toNat 0) s2

/-- `get_current_book`: require non-empty, then
`get_book_by_selection_number(current_selection_number)`. -/
def get_current_book (ctx : Ctx) (s : ModelState) : PyResult Books :=
  match check_if_empty s with
  | .exn s1 e => .exn s1 e
  | .ok s1 _ => get_book_by_selection_number ctx (some s1.current_selection_number) s1

/-- The generator of `get_reading_list_page_count`: sum `book.length` over
every listed id, fetching each via cache/DB, fail-fast. -/
def page_count_loop (ctx : Ctx) (ids : List Int) (s : ModelState) : PyResult Nat :=
  match ids with
  | [] => .ok s 0
  | i :: rest =>
    match _get_book_from_cache_or_db ctx i s with
    | .exn s1 e => .exn s1 e
    | .ok s1 b =>
      match page_count_loop ctx rest s1 with
      | .exn s2 e => .exn s2 e
      | .ok s2 total => .ok s2 (b.length + total)

/-- `get_reading_list_page_count` (readinglist module): total pages. -/
def get_reading_list_page_count (ctx : Ctx) (s : ModelState) : PyResult Nat :=
  page_count_loop ctx s.reading_list s

/-- `go_to_selection_number`: require non-empty, validate, set the cursor. -/
def go_to_selection_number (ctx : Ctx) (selection_number : Option Int)
    (s : ModelState) : PyResult Unit :=
  match check_if_empty s with
  | .exn s1 e => .exn s1 e
  | .ok s1 _ =>
    match validate_selection_number selection_number s1 with
    | .exn s2 e => .exn s2 e
    | .ok s2 n => .ok { s2 with current_selection_number := n } ()

/-- `go_to_random_selection`: require non-empty, set the cursor to
`get_random(get_reading_list_length())` (randomness provider modelled from
the spec as `Ctx.get_random`, contract: result in `[1, upper]`). -/
def go_to_random_selection (ctx : Ctx) (s : ModelState) : PyResult Unit :=
  match check_if_empty s with
  | .exn s1 e => .exn s1 e
  | .ok s1 _ =>
    .ok { s1 with current_selection_number := ctx.get_random s1.reading_list.length } ()

/-- `move_book_to_beginning`: require non-empty, validate the id, then
`remove` it and `insert(0, ...)`. -/
def move_book_to_beginning (ctx : Ctx) (book_id : Option Int) (s : ModelState) :
    PyResult Unit :=
  match check_if_empty s with
  | .exn s1 e => .exn s1 e
  | .ok s1 _ =>
    match validate_book_id ctx book_id true s1 with
    | .exn s2 e => .exn s2 e
    | .ok s2 bid =>
      match list_remove s2.reading_list bid with
      | none => .exn s2 (.listRemoveMissing bid)
      | some l => .ok { s2 with reading_list := bid :: l } ()

/-- `move_book_to_end`: require non-empty, validate the id, then `remove`
it and `append`. -/
def move_book_to_end (ctx : Ctx) (book_id : Option Int) (s : ModelState) :
    PyResult Unit :=
  match check_if_empty s with
  | .exn s1 e => .exn s1 e
  | .ok s1 _ =>
    match validate_book_id ctx book_id true s1 with
    | .exn s2 e => .exn s2 e
    | .ok s2 bid =>
      match list_remove s2.reading_list bid with
      | none => .exn s2 (.listRemoveMissing bid)
      | some l => .ok { s2 with reading_list := l ++ [bid] } ()

/-- `move_book_to_selection_number`: require non-empty, validate id and
selection number, then `remove` and `insert(selection_number - 1, ...)`. -/
def move_book_to_selection_number (ctx : Ctx) (book_id : Option Int)
    (selection_number : Option Int) (s : ModelState) : PyResult Unit :=
  match check_if_empty s with
  | .exn s1 e => .exn s1 e
  | .ok s1 _ =>
    match validate_book_id ctx book_id true s1 with
    | .exn s2 e => .exn s2 e
    | .ok s2 bid =>
      match validate_selection_number selection_number s2 with
      | .exn s3 e => .exn s3 e
      | .ok s3 n =>
        match list_remove s3.reading_list bid with
        | none => .exn s3 (.listRemoveMissing bid)
        | some l => .ok { s3 with reading_list := l.insertIdx (n - 1).toNat bid } ()

/-- `swap_books_in_reading_list`: require non-empty, validate both ids,
reject a self-swap, then exchange the entries at their first indices. -/
def swap_books_in_reading_list (ctx : Ctx) (book1_id book2_id : Option Int)
    (s : ModelState) : PyResult Unit :=
  match check_if_empty s with
  | .exn s1 e => .exn s1 e
  | .ok s1 _ =>
    match validate_book_id ctx book1_id true s1 with
    | .exn s2 e => .exn s2 e
    | .ok s2 b1 =>
      match validate_book_id ctx book2_id true s2 with
      | .exn s3 e => .exn s3 e
      | .ok s3 b2 =>
        if b1 = b2 then .exn s3 (.selfSwap b1)
        else
          let idx1 := s3.reading_list.indexOf b1
          let idx2 := s3.reading_list.indexOf b2
          let v1 := s3.reading_list.getD idx1 0
          let v2 := s3.reading_list.getD idx2 0
          .ok { s3 with reading_list := (s3.reading_list.set idx1 v2).set idx2 v1 } ()

/-- Modelled from the spec: `Item.incrementReadCount()` is delegated to the
store adapter (`Books.update_read_count` lives in `book_model.py`, outside
the snapshot); the model logs the increment in `readIncrements`. -/
def update_read_count (book : Books) (s : ModelState) : ModelState :=
  { s with readIncrements := s.readIncrements ++ [book.id] }

/-- `read_current_book`: require non-empty, resolve the book at the cursor,
increment its read count, then advance the cursor circularly:
`cursor = (cursor mod length) + 1` with the length re-read at advance time. -/
def read_current_book (ctx : Ctx) (s : ModelState) : PyResult Unit :=
  match check_if_empty s with
  | .exn s1 e => .exn s1 e
  | .ok s1 _ =>
    match get_book_by_selection_number ctx (some s1.current_selection_number) s1 with
    | .exn s2 e => .exn s2 e
    | .ok s2 current =>
      let s3 := update_read_count current s2
      .ok { s3 with current_selection_number :=
              s3.current_selection_number % (s3.reading_list.length : Int) + 1 } ()

/-- `for _ in range(k): self.read_current_book()`. -/
def read_loop (ctx : Ctx) (k : Nat) (s : ModelState) : PyResult Unit :=
  match k with
  | 0 => .ok s ()
  | k' + 1 =>
    match read_current_book ctx s with
    | .exn s1 e => .exn s1 e
    | .ok s1 _ => read_loop ctx k' s1

/-- `read_entire_reading_list`: require non-empty, reset the cursor to 1,
then call `read_current_book` exactly `get_reading_list_length()` times
(the count is captured once, before the loop). -/
def read_entire_reading_list (ctx : Ctx) (s : ModelState) : PyResult Unit :=
  match check_if_empty s with
  | .exn s1 e => .exn s1 e
  | .ok s1 _ =>
    let s2 := { s1 with current_selection_number := 1 }
    read_loop ctx s2.reading_list.length s2

/-- `read_rest_of_reading_list`: require non-empty, then call
`read_current_book` `range(length - cursor + 1)` times (an empty range when
the cursor exceeds the length). -/
def read_rest_of_reading_list (ctx : Ctx) (s : ModelState) : PyResult Unit :=
  match check_if_empty s with
  | .exn s1 e => .exn s1 e
  | .ok s1 _ =>
    read_loop ctx
      ((s1.reading_list.length : Int) - s1.current_selection_number + 1).toNat s1

/-- `rewind_reading_list`: require non-empty, set the cursor to 1. -/
def rewind_reading_list (ctx : Ctx) (s : ModelState) : PyResult Unit :=
  match check_if_empty s with
  | .exn s1 e => .exn s1 e
  | .ok s1 _ => .ok { s1 with current_selection_number := 1 } ()

/-!
The near-duplicate module
`src/final/reading_list/reading_list/models/reading_list_model.py` defines
`get_reading_list_length` twice in the same class body.  Its
`_get_book_from_cache_or_db` is textually identical to the one above, so it
is reused.  Python executes a class body top to bottom, assigning each
`def` into the class namespace dict; a later `def` with the same name
overwrites the earlier one.
-/

/-- A method of the duplicate module's class, uniformly typed. -/
def ClsMethod : Type := Ctx → ModelState → PyResult Nat

/-- First `def get_reading_list_length` of the duplicate module (lines
231-240): `len(self.reading_list)`. -/
def orig_get_reading_list_length_count : ClsMethod :=
  fun _ s => .ok s s.reading_list.length

/-- The generator of the second definition: sum
`_get_book_from_cache_or_db(book_id).length` over the reading list. -/
def orig_pages_loop (ctx : Ctx) (ids : List Int) (s : ModelState) : PyResult Nat :=
  match ids with
  | [] => .ok s 0
  | i :: rest =>
    match _get_book_from_cache_or_db ctx i s with
    | .exn s1 e => .exn s1 e
    | .ok s1 b =>
      match orig_pages_loop ctx rest s1 with
      | .exn s2 e => .exn s2 e
      | .ok s2 total => .ok s2 (b.length + total)

/-- Second `def get_reading_list_length` of the duplicate module (lines
242-252): total page length of all listed books. -/
def orig_get_reading_list_length_pages : ClsMethod :=
  fun ctx s => orig_pages_loop ctx s.reading_list s

/-- Python class-namespace dict write (later assignment shadows earlier). -/
def methodDictSet (d : List (String × ClsMethod)) (k : String) (v : ClsMethod) :
    List (String × ClsMethod) :=
  (k, v) :: d.filter (fun p => p.1 != k)

/-- Python attribute lookup on the class dict. -/
def methodDictGet (d : List (String × ClsMethod)) (k : String) : Option ClsMethod :=
  (d.find? (fun p => p.1 == k)).map (fun p => p.2)

/-- The `get_reading_list_length` entries of the duplicate module's class
body, executed top to bottom: the count-of-ids definition is assigned
first, then the page-summing definition is assigned over it. -/
def origClassDict : List (String × ClsMethod) :=
  methodDictSet
    (methodDictSet [] "get_reading_list_length" orig_get_reading_list_length_count)
    "get_reading_list_length" orig_get_reading_list_length_pages

/-!  Concrete fixtures used by witnesses and counterexamples. -/

/-- A two-hundred-page book with id 1. -/
def bookA : Books :=
  { id := 1, author := "a", title := "ta", year := 2001, genre := "g", length := 200 }

/-- A three-hundred-page book with id 2. -/
def bookB : Books :=
  { id := 2, author := "b", title := "tb", year := 2002, genre := "g", length := 300 }

/-- A store holding exactly `bookA` (id 1) and `bookB` (id 2). -/
def dbAB : Int → Option Books :=
  fun i => if i = 1 then some bookA else if i = 2 then some bookB else none

/-- Context over `dbAB` at instant 1000, with a constant-1 randomness
provider. -/
def ctxAB : Ctx := { db := dbAB, get_random := fun _ => 1, now := 1000 }

/-- Context over an empty store at instant 1000. -/
def ctxNone : Ctx := { db := fun _ => none, get_random := fun _ => 1, now := 1000 }

/-- State with reading list `[1, 2]`, cursor 2, cold cache. -/
def stateAB : ModelState :=
  { current_selection_number := 2
    reading_list := [1, 2]
    book_cache := []
    ttl := []
    ttl_seconds := 60
    dbFetches := []
    readIncrements := [] }

/-- State as `stateAB` but with both books freshly cached (expiry 2000,
far beyond `ctxAB.now = 1000`). -/
def stateABCached : ModelState :=
  { current_selection_number := 2
    reading_list := [1, 2]
    book_cache := [(1, bookA), (2, bookB)]
    ttl := [(1, 2000), (2, 2000)]
    ttl_seconds := 60
    dbFetches := []
    readIncrements := [] }

def PyResult.valOf {α : Type} : PyResult α → Option α
  | .ok _ v => some v
  | .exn _ _ => none

/-- Cache well-formedness: a snapshot cached under key `k` carries id `k`. -/
def CacheWF (s : ModelState) : Prop :=
  ∀ k b, dictGet s.book_cache k = some b → b.id = k

/-- Store well-formedness (spec §2: the store, "given an identifier, returns
an item snapshot" for that identifier): the snapshot's id is its key. -/
def DbWF (ctx : Ctx) : Prop :=
  ∀ k b, ctx.db k = some b → b.id = k

/-- The randomness provider's contract (spec §4.3): for a positive upper
bound, a result in `[1, upperBound]`.  The engine only calls the provider
with upper bound `length()`, which is at least 1 past the emptiness check,
so the contract constrains exactly those calls. -/
def RandOK (ctx : Ctx) : Prop :=
  ∀ n : Nat, 0 < n → 1 ≤ ctx.get_random n ∧ ctx.get_random n ≤ (n : Int)

/-!  Helper lemmas: frame facts about the validators and the cache layer. -/

/-- The store fetch only appends to the fetch log. -/
theorem get_book_by_id_stateOf (ctx : Ctx) (bid : Int) (s : ModelState) :
    (Books.get_book_by_id ctx bid s).stateOf =
      { s with dbFetches := s.dbFetches ++ [bid] } := by
  unfold Books.get_book_by_id
  cases ctx.db bid <;> simp [PyResult.stateOf]

/-- The cache layer never touches the reading list, the cursor, the TTL
configuration or the increment log, on success or failure. -/
theorem _get_fields (ctx : Ctx) (bid : Int) (s : ModelState) :
    ((_get_book_from_cache_or_db ctx bid s).stateOf).reading_list = s.reading_list ∧
    ((_get_book_from_cache_or_db ctx bid s).stateOf).current_selection_number
        = s.current_selection_number ∧
    ((_get_book_from_cache_or_db ctx bid s).stateOf).ttl_seconds = s.ttl_seconds ∧
    ((_get_book_from_cache_or_db ctx bid s).stateOf).readIncrements = s.readIncrements := by
  unfold _get_book_from_cache_or_db Books.get_book_by_id
  cases hc : dictGet s.book_cache bid <;> cases hdb : ctx.db bid <;>
    simp only [hc, hdb] <;> (try split) <;> simp [PyResult.stateOf]

/-- `validate_book_id` never touches the reading list, the cursor, the TTL
configuration or the increment log, on success or failure. -/
theorem validate_book_id_fields (ctx : Ctx) (raw : Option Int) (chk : Bool)
    (s : ModelState) :
    ((validate_book_id ctx raw chk s).stateOf).reading_list = s.reading_list ∧
    ((validate_book_id ctx raw chk s).stateOf).current_selection_number
        = s.current_selection_number ∧
    ((validate_book_id ctx raw chk s).stateOf).ttl_seconds = s.ttl_seconds ∧
    ((validate_book_id ctx raw chk s).stateOf).readIncrements = s.readIncrements := by
  unfold validate_book_id
  cases raw with
  | none => simp [PyResult.stateOf]
  | some bid =>
    simp only
    split
    · simp [PyResult.stateOf]
    · split
      · simp [PyResult.stateOf]
      · cases h : _get_book_from_cache_or_db ctx bid s with
        | exn s1 e =>
          have := _get_fields ctx bid s
          rw [h] at this
          simpa [PyResult.stateOf] using this
        | ok s1 b =>
          have := _get_fields ctx bid s
          rw [h] at this
          simpa [PyResult.stateOf] using this

/-- On success, `validate_book_id` returns the parsed argument, which is
non-negative, and (when membership was required) a member of the list. -/
theorem validate_book_id_ok (ctx : Ctx) (raw : Option Int) (chk : Bool)
    (s s' : ModelState) (bid : Int)
    (h : validate_book_id ctx raw chk s = .ok s' bid) :
    raw = some bid ∧ 0 ≤ bid ∧ (chk = true → bid ∈ s.reading_list) := by
  unfold validate_book_id at h
  cases raw with
  | none => simp at h
  | some b0 =>
    simp only at h
    split at h
    · simp at h
    · rename_i hneg
      split at h
      · simp at h
      · rename_i hmem
        cases hg : _get_book_from_cache_or_db ctx b0 s with
        | exn s1 e => rw [hg] at h; simp at h
        | ok s1 bk =>
          rw [hg] at h
          simp only [PyResult.ok.injEq] at h
          obtain ⟨h1, h2⟩ := h
          subst h1; subst h2
          refine ⟨rfl, by omega, fun hc2 => ?_⟩
          by_contra hnm
          exact hmem ⟨hc2, hnm⟩

/-- A lookup for `k'` skips entries keyed `k ≠ k'`, so filtering those out
changes nothing. -/
theorem find?_filter_ne {β : Type} (d : List (Int × β)) (k k' : Int) (h : k' ≠ k) :
    List.find? (fun p => p.1 == k') (d.filter (fun p => p.1 != k)) =
      List.find? (fun p => p.1 == k') d := by
  induction d with
  | nil => rfl
  | cons p rest ih =>
    by_cases hp : p.1 = k
    · have h2 : (k == k') = false := by simp; omega
      simp [List.filter_cons, List.find?_cons, hp, h2, ih]
    · simp only [List.filter_cons, bne_iff_ne, ne_eq, hp, not_false_eq_true, if_true]
      rw [List.find?_cons, List.find?_cons]
      cases hpk : (p.1 == k') <;> simp [hpk, ih]

/-- Dict write/read: the written key reads back the new value, others are
untouched. -/
theorem dictGet_dictSet {β : Type} (d : List (Int × β)) (k k' : Int) (v : β) :
    dictGet (dictSet d k v) k' = if k' = k then some v else dictGet d k' := by
  by_cases h : k' = k
  · subst h; simp [dictGet, dictSet, List.find?_cons]
  · have h2 : (k == k') = false := by simp; omega
    simp only [dictGet, dictSet, if_neg h, List.find?_cons, h2]
    rw [find?_filter_ne d k k' h]

/-- When the store resolves the id, the cache layer succeeds (from the
cache or from the store). -/
theorem _get_ok_of_db (ctx : Ctx) (a : Int) (s : ModelState)
    (hdb : (ctx.db a).isSome = true) :
    ∃ s' b, _get_book_from_cache_or_db ctx a s = .ok s' b := by
  obtain ⟨book, hb⟩ := Option.isSome_iff_exists.mp hdb
  unfold _get_book_from_cache_or_db Books.get_book_by_id
  cases hc : dictGet s.book_cache a with
  | none => simp [hc, hb]
  | some cached =>
    simp only [hc]
    split
    · exact ⟨_, _, rfl⟩
    · simp [hb]

/-- On success the cache layer returns a snapshot whose id is the requested
key, and preserves cache well-formedness. -/
theorem _get_ok_id (ctx : Ctx) (a : Int) (s s' : ModelState) (b : Books)
    (hwf : CacheWF s) (hdb : DbWF ctx)
    (h : _get_book_from_cache_or_db ctx a s = .ok s' b) :
    b.id = a ∧ CacheWF s' := by
  unfold _get_book_from_cache_or_db Books.get_book_by_id at h
  cases hc : dictGet s.book_cache a with
  | some cached =>
    rw [hc] at h
    simp only at h
    by_cases hf : (dictGet s.ttl a).getD 0 > ctx.now
    · rw [if_pos hf] at h
      simp only [PyResult.ok.injEq] at h
      obtain ⟨h1, h2⟩ := h
      subst h1
      rw [← h2]
      exact ⟨hwf a cached hc, hwf⟩
    · rw [if_neg hf] at h
      simp only at h
      cases hb : ctx.db a with
      | none => rw [hb] at h; simp at h
      | some book =>
        rw [hb] at h; simp only [PyResult.ok.injEq] at h
        obtain ⟨h1, h2⟩ := h; subst h1; subst h2
        refine ⟨hdb a _ hb, fun k bk hk => ?_⟩
        simp only [] at hk
        rw [dictGet_dictSet] at hk
        split at hk
        · rename_i hka
          cases hk
          rw [hka]; exact hdb a _ hb
        · exact hwf k bk hk
  | none =>
    rw [hc] at h
    simp only at h
    cases hb : ctx.db a with
    | none => rw [hb] at h; simp at h
    | some book =>
      rw [hb] at h; simp only [PyResult.ok.injEq] at h
      obtain ⟨h1, h2⟩ := h; subst h1; subst h2
      refine ⟨hdb a _ hb, fun k bk hk => ?_⟩
      simp only [] at hk
      rw [dictGet_dictSet] at hk
      split at hk
      · rename_i hka
        cases hk
        rw [hka]; exact hdb a _ hb
      · exact hwf k bk hk

/-- `validate_book_id` succeeds on a non-negative id that satisfies the
membership requirement and resolves in the store. -/
theorem validate_book_id_succeeds (ctx : Ctx) (a : Int) (chk : Bool) (s : ModelState)
    (ha : 0 ≤ a) (hmem : chk = true → a ∈ s.reading_list)
    (hdb : (ctx.db a).isSome = true) :
    ∃ s', validate_book_id ctx (some a) chk s = .ok s' a := by
  unfold validate_book_id
  simp only
  rw [if_neg (by omega)]
  rw [if_neg (by rintro ⟨h1, h2⟩; exact h2 (hmem h1))]
  obtain ⟨s', b, hg⟩ := _get_ok_of_db ctx a s hdb
  rw [hg]
  exact ⟨s', rfl⟩

/-- The only errors `validate_book_id` can raise are its own three. -/
theorem validate_book_id_exn_shape (ctx : Ctx) (raw : Option Int) (chk : Bool)
    (s s' : ModelState) (e : PyErr)
    (h : validate_book_id ctx raw chk s = .exn s' e) :
    (∃ r, e = .invalidBookId r) ∨ (∃ b, e = .idNotInReadingList b) ∨
      (∃ b, e = .validateDbNotFound b) := by
  unfold validate_book_id at h
  cases raw with
  | none =>
    simp only [PyResult.exn.injEq] at h
    exact Or.inl ⟨none, h.2.symm⟩
  | some b0 =>
    simp only at h
    split at h
    · simp only [PyResult.exn.injEq] at h
      exact Or.inl ⟨some b0, h.2.symm⟩
    · split at h
      · simp only [PyResult.exn.injEq] at h
        exact Or.inr (Or.inl ⟨b0, h.2.symm⟩)
      · cases hg : _get_book_from_cache_or_db ctx b0 s with
        | exn s1 e1 =>
          rw [hg] at h
          simp only [PyResult.exn.injEq] at h
          exact Or.inr (Or.inr ⟨b0, h.2.symm⟩)
        | ok s1 bk =>
          rw [hg] at h; simp at h

/-!  Frame lemmas for the public operations: which fields each operation
can touch, on success and on failure. -/

/-- `validate_selection_number` returns the input state in both outcomes. -/
theorem validate_selection_number_stateOf (raw : Option Int) (s : ModelState) :
    (validate_selection_number raw s).stateOf = s := by
  unfold validate_selection_number
  cases raw with
  | none => rfl
  | some n =>
    simp only
    split <;> rfl

/-- `check_if_empty` either returns or raises EmptyCollection, in both
cases with the state untouched. -/
theorem check_if_empty_cases (s : ModelState) :
    check_if_empty s = .ok s () ∨ check_if_empty s = .exn s .emptyList := by
  unfold check_if_empty
  split
  · exact Or.inr rfl
  · exact Or.inl rfl

/-- The fetch loop of `get_all_books` touches neither list nor cursor. -/
theorem get_books_loop_frame (ctx : Ctx) (ids : List Int) (s : ModelState) :
    ((get_books_loop ctx ids s).stateOf).reading_list = s.reading_list ∧
    ((get_books_loop ctx ids s).stateOf).current_selection_number
        = s.current_selection_number := by
  induction ids generalizing s with
  | nil => exact ⟨rfl, rfl⟩
  | cons i rest ih =>
    unfold get_books_loop
    cases hg : _get_book_from_cache_or_db ctx i s with
    | exn s1 e =>
      have h := _get_fields ctx i s
      rw [hg] at h
      simpa [PyResult.stateOf] using ⟨h.1, h.2.1⟩
    | ok s1 b =>
      have h := _get_fields ctx i s
      rw [hg] at h
      simp only [PyResult.stateOf] at h
      cases hr : get_books_loop ctx rest s1 with
      | exn s2 e =>
        have h2 := ih s1
        rw [hr] at h2
        simp only []
        rw [hr]
        simp only [PyResult.stateOf] at h2 ⊢
        exact ⟨h2.1.trans h.1, h2.2.trans h.2.1⟩
      | ok s2 bs =>
        have h2 := ih s1
        rw [hr] at h2
        simp only []
        rw [hr]
        simp only [PyResult.stateOf] at h2 ⊢
        exact ⟨h2.1.trans h.1, h2.2.trans h.2.1⟩

/-- The page-summing loop touches neither list nor cursor. -/
theorem page_count_loop_frame (ctx : Ctx) (ids : List Int) (s : ModelState) :
    ((page_count_loop ctx ids s).stateOf).reading_list = s.reading_list ∧
    ((page_count_loop ctx ids s).stateOf).current_selection_number
        = s.current_selection_number := by
  induction ids generalizing s with
  | nil => exact ⟨rfl, rfl⟩
  | cons i rest ih =>
    unfold page_count_loop
    cases hg : _get_book_from_cache_or_db ctx i s with
    | exn s1 e =>
      have h := _get_fields ctx i s
      rw [hg] at h
      simpa [PyResult.stateOf] using ⟨h.1, h.2.1⟩
    | ok s1 b =>
      have h := _get_fields ctx i s
      rw [hg] at h
      simp only [PyResult.stateOf] at h
      cases hr : page_count_loop ctx rest s1 with
      | exn s2 e =>
        have h2 := ih s1
        rw [hr] at h2
        simp only []
        rw [hr]
        simp only [PyResult.stateOf] at h2 ⊢
        exact ⟨h2.1.trans h.1, h2.2.trans h.2.1⟩
      | ok s2 total =>
        have h2 := ih s1
        rw [hr] at h2
        simp only []
        rw [hr]
        simp only [PyResult.stateOf] at h2 ⊢
        exact ⟨h2.1.trans h.1, h2.2.trans h.2.1⟩

/-- `get_all_books` touches neither list nor cursor. -/
theorem get_all_books_frame (ctx : Ctx) (s : ModelState) :
    ((get_all_books ctx s).stateOf).reading_list = s.reading_list ∧
    ((get_all_books ctx s).stateOf).current_selection_number
        = s.current_selection_number := by
  unfold get_all_books
  rcases check_if_empty_cases s with hc | hc <;> rw [hc]
  · exact get_books_loop_frame ctx s.reading_list s
  · exact ⟨rfl, rfl⟩

/-- `get_book_by_book_id` touches neither list nor cursor. -/
theorem get_book_by_book_id_frame (ctx : Ctx) (raw : Option Int) (s : ModelState) :
    ((get_book_by_book_id ctx raw s).stateOf).reading_list = s.reading_list ∧
    ((get_book_by_book_id ctx raw s).stateOf).current_selection_number
        = s.current_selection_number := by
  unfold get_book_by_book_id
  rcases check_if_empty_cases s with hc | hc <;> rw [hc]
  · simp only
    cases hv : validate_book_id ctx raw true s with
    | exn s1 e =>
      have h := validate_book_id_fields ctx raw true s
      rw [hv] at h
      exact ⟨h.1, h.2.1⟩
    | ok s1 bid =>
      have h := validate_book_id_fields ctx raw true s
      rw [hv] at h
      simp only [PyResult.stateOf] at h
      have h2 := _get_fields ctx bid s1
      exact ⟨h2.1.trans h.1, (h2.2.1).trans h.2.1⟩
  · exact ⟨rfl, rfl⟩

/-- `get_book_by_selection_number` touches neither list nor cursor. -/
theorem get_book_by_selection_number_frame (ctx : Ctx) (raw : Option Int)
    (s : ModelState) :
    ((get_book_by_selection_number ctx raw s).stateOf).reading_list = s.reading_list ∧
    ((get_book_by_selection_number ctx raw s).stateOf).current_selection_number
        = s.current_selection_number := by
  unfold get_book_by_selection_number
  rcases check_if_empty_cases s with hc | hc <;> rw [hc]
  · simp only
    cases hv : validate_selection_number raw s with
    | exn s1 e =>
      have h := validate_selection_number_stateOf raw s
      rw [hv] at h
      simp only [PyResult.stateOf] at h
      simp [PyResult.stateOf, h]
    | ok s1 n =>
      have h := validate_selection_number_stateOf raw s
      rw [hv] at h
      simp only [PyResult.stateOf] at h
      rw [h]
      have h2 := _get_fields ctx (s.reading_list.getD (n - 1).toNat 0) s
      exact ⟨h2.1, h2.2.1⟩
  · exact ⟨rfl, rfl⟩

/-- `get_current_book` touches neither list nor cursor. -/
theorem get_current_book_frame (ctx : Ctx) (s : ModelState) :
    ((get_current_book ctx s).stateOf).reading_list = s.reading_list ∧
    ((get_current_book ctx s).stateOf).current_selection_number
        = s.current_selection_number := by
  unfold get_current_book
  rcases check_if_empty_cases s with hc | hc <;> rw [hc]
  · exact get_book_by_selection_number_frame ctx (some s.current_selection_number) s
  · exact ⟨rfl, rfl⟩

/-- `get_reading_list_length` touches nothing. -/
theorem get_reading_list_length_frame (s : ModelState) :
    (get_reading_list_length s).stateOf = s := rfl

/-- `get_reading_list_page_count` touches neither list nor cursor. -/
theorem get_reading_list_page_count_frame (ctx : Ctx) (s : ModelState) :
    ((get_reading_list_page_count ctx s).stateOf).reading_list = s.reading_list ∧
    ((get_reading_list_page_count ctx s).stateOf).current_selection_number
        = s.current_selection_number :=
  page_count_loop_frame ctx s.reading_list s

/-- `add_book_to_reading_list` never touches the cursor, and leaves the
list untouched when it fails. -/
theorem add_frame (ctx : Ctx) (raw : Option Int) (s : ModelState) :
    ((add_book_to_reading_list ctx raw s).stateOf).current_selection_number
        = s.current_selection_number ∧
    ((add_book_to_reading_list ctx raw s).isOk = false →
      ((add_book_to_reading_list ctx raw s).stateOf).reading_list = s.reading_list) := by
  unfold add_book_to_reading_list
  cases hv : validate_book_id ctx raw false s with
  | exn s1 e =>
    have h := validate_book_id_fields ctx raw false s
    rw [hv] at h
    simp only [PyResult.stateOf] at h ⊢
    exact ⟨h.2.1, fun _ => h.1⟩
  | ok s1 bid =>
    have h := validate_book_id_fields ctx raw false s
    rw [hv] at h
    simp only [PyResult.stateOf] at h
    simp only []
    split
    · simp only [PyResult.stateOf, PyResult.isOk]
      exact ⟨h.2.1, fun _ => h.1⟩
    · cases hg : _get_book_from_cache_or_db ctx bid s1 with
      | exn s2 e =>
        have h2 := _get_fields ctx bid s1
        rw [hg] at h2
        simp only [PyResult.stateOf] at h2
        simp only [PyResult.stateOf, PyResult.isOk]
        exact ⟨h2.2.1.trans h.2.1, fun _ => h2.1.trans h.1⟩
      | ok s2 book =>
        have h2 := _get_fields ctx bid s1
        rw [hg] at h2
        simp only [PyResult.stateOf] at h2
        simp only [PyResult.stateOf, PyResult.isOk]
        exact ⟨h2.2.1.trans h.2.1, by simp⟩

/-- `remove_book_by_book_id` never touches the cursor, and leaves the list
untouched when it fails. -/
theorem remove_book_by_book_id_frame (ctx : Ctx) (raw : Option Int) (s : ModelState) :
    ((remove_book_by_book_id ctx raw s).stateOf).current_selection_number
        = s.current_selection_number ∧
    ((remove_book_by_book_id ctx raw s).isOk = false →
      ((remove_book_by_book_id ctx raw s).stateOf).reading_list = s.reading_list) := by
  unfold remove_book_by_book_id
  rcases check_if_empty_cases s with hc | hc <;> rw [hc]
  · simp only
    cases hv : validate_book_id ctx raw true s with
    | exn s1 e =>
      have h := validate_book_id_fields ctx raw true s
      rw [hv] at h
      simp only [PyResult.stateOf] at h ⊢
      exact ⟨h.2.1, fun _ => h.1⟩
    | ok s1 bid =>
      have h := validate_book_id_fields ctx raw true s
      rw [hv] at h
      simp only [PyResult.stateOf] at h
      simp only []
      split
      · simp only [PyResult.stateOf, PyResult.isOk]
        exact ⟨h.2.1, fun _ => h.1⟩
      · cases hlr : list_remove s1.reading_list bid with
        | none =>
          simp only [PyResult.stateOf, PyResult.isOk]
          exact ⟨h.2.1, fun _ => h.1⟩
        | some l =>
          simp only [hlr, PyResult.stateOf, PyResult.isOk]
          exact ⟨h.2.1, by simp⟩
  · simp [PyResult.stateOf, PyResult.isOk]

/-- `remove_book_by_selection_number` never touches the cursor, and leaves
the list untouched when it fails. -/
theorem remove_book_by_selection_number_frame (ctx : Ctx) (raw : Option Int)
    (s : ModelState) :
    ((remove_book_by_selection_number ctx raw s).stateOf).current_selection_number
        = s.current_selection_number ∧
    ((remove_book_by_selection_number ctx raw s).isOk = false →
      ((remove_book_by_selection_number ctx raw s).stateOf).reading_list
        = s.reading_list) := by
  unfold remove_book_by_selection_number
  rcases check_if_empty_cases s with hc | hc <;> rw [hc]
  · simp only
    cases hv : validate_selection_number raw s with
    | exn s1 e =>
      have h := validate_selection_number_stateOf raw s
      rw [hv] at h
      simp only [PyResult.stateOf] at h
      simp only [PyResult.stateOf, PyResult.isOk]
      rw [h]
      exact ⟨rfl, fun _ => rfl⟩
    | ok s1 n =>
      have h := validate_selection_number_stateOf raw s
      rw [hv] at h
      simp only [PyResult.stateOf] at h
      simp only [PyResult.stateOf, PyResult.isOk]
      rw [h]
      exact ⟨rfl, by simp⟩
  · simp [PyResult.stateOf, PyResult.isOk]

/-- `clear_reading_list` always succeeds, never touches the cursor, and
leaves the list empty. -/
theorem clear_frame (ctx : Ctx) (s : ModelState) :
    ((clear_reading_list ctx s).stateOf).current_selection_number
        = s.current_selection_number ∧
    (clear_reading_list ctx s).isOk = true ∧
    ((clear_reading_list ctx s).stateOf).reading_list = [] := by
  unfold clear_reading_list
  rcases check_if_empty_cases s with hc | hc <;> rw [hc] <;>
    simp [PyResult.stateOf, PyResult.isOk]

/-- `go_to_selection_number` never touches the list; on failure the cursor
is untouched, on success it is set to the validated value. -/
theorem go_to_selection_number_frame (ctx : Ctx) (raw : Option Int) (s : ModelState) :
    ((go_to_selection_number ctx raw s).stateOf).reading_list = s.reading_list ∧
    ((go_to_selection_number ctx raw s).isOk = false →
      ((go_to_selection_number ctx raw s).stateOf).current_selection_number
        = s.current_selection_number) ∧
    (∀ s' u, go_to_selection_number ctx raw s = .ok s' u →
      ∃ n, validate_selection_number raw s = .ok s n ∧
        s'.current_selection_number = n) := by
  unfold go_to_selection_number
  rcases check_if_empty_cases s with hc | hc <;> rw [hc]
  · simp only
    cases hv : validate_selection_number raw s with
    | exn s1 e =>
      have h := validate_selection_number_stateOf raw s
      rw [hv] at h
      simp only [PyResult.stateOf] at h
      simp only [PyResult.stateOf, PyResult.isOk]
      rw [h]
      refine ⟨rfl, fun _ => rfl, ?_⟩
      intro s' u hh
      simp at hh
    | ok s1 n =>
      have h := validate_selection_number_stateOf raw s
      rw [hv] at h
      simp only [PyResult.stateOf] at h
      rw [h] at hv
      simp only [PyResult.stateOf, PyResult.isOk]
      rw [h]
      refine ⟨rfl, by simp, ?_⟩
      intro s' u hh
      simp only [PyResult.ok.injEq] at hh
      obtain ⟨h1, -⟩ := hh
      subst h1
      exact ⟨n, rfl, rfl⟩
  · simp [PyResult.stateOf, PyResult.isOk]

/-- `go_to_random_selection` never touches the list; on failure the cursor
is untouched, on success it is the provider's value for `length`. -/
theorem go_to_random_selection_frame (ctx : Ctx) (s : ModelState) :
    ((go_to_random_selection ctx s).stateOf).reading_list = s.reading_list ∧
    ((go_to_random_selection ctx s).isOk = false →
      ((go_to_random_selection ctx s).stateOf).current_selection_number
        = s.current_selection_number) ∧
    ((go_to_random_selection ctx s).isOk = true →
      ((go_to_random_selection ctx s).stateOf).current_selection_number
        = ctx.get_random s.reading_list.length) := by
  unfold go_to_random_selection
  rcases check_if_empty_cases s with hc | hc <;> rw [hc] <;>
    simp [PyResult.stateOf, PyResult.isOk]

/-- `rewind_reading_list` never touches the list; on failure the cursor is
untouched, on success it becomes 1. -/
theorem rewind_frame (ctx : Ctx) (s : ModelState) :
    ((rewind_reading_list ctx s).stateOf).reading_list = s.reading_list ∧
    ((rewind_reading_list ctx s).isOk = false →
      ((rewind_reading_list ctx s).stateOf).current_selection_number
        = s.current_selection_number) ∧
    ((rewind_reading_list ctx s).isOk = true →
      ((rewind_reading_list ctx s).stateOf).current_selection_number = 1) := by
  unfold rewind_reading_list
  rcases check_if_empty_cases s with hc | hc <;> rw [hc] <;>
    simp [PyResult.stateOf, PyResult.isOk]

/-- `move_book_to_beginning` never touches the cursor, and leaves the list
untouched when it fails. -/
theorem move_book_to_beginning_frame (ctx : Ctx) (raw : Option Int) (s : ModelState) :
    ((move_book_to_beginning ctx raw s).stateOf).current_selection_number
        = s.current_selection_number ∧
    ((move_book_to_beginning ctx raw s).isOk = false →
      ((move_book_to_beginning ctx raw s).stateOf).reading_list = s.reading_list) := by
  unfold move_book_to_beginning
  rcases check_if_empty_cases s with hc | hc <;> rw [hc]
  · simp only
    cases hv : validate_book_id ctx raw true s with
    | exn s1 e =>
      have h := validate_book_id_fields ctx raw true s
      rw [hv] at h
      simp only [PyResult.stateOf] at h ⊢
      exact ⟨h.2.1, fun _ => h.1⟩
    | ok s1 bid =>
      have h := validate_book_id_fields ctx raw true s
      rw [hv] at h
      simp only [PyResult.stateOf] at h
      simp only []
      cases hlr : list_remove s1.reading_list bid with
      | none =>
        simp only [hlr, PyResult.stateOf, PyResult.isOk]
        exact ⟨h.2.1, fun _ => h.1⟩
      | some l =>
        simp only [hlr, PyResult.stateOf, PyResult.isOk]
        exact ⟨h.2.1, by simp⟩
  · simp [PyResult.stateOf, PyResult.isOk]

/-- `move_book_to_end` never touches the cursor, and leaves the list
untouched when it fails. -/
theorem move_book_to_end_frame (ctx : Ctx) (raw : Option Int) (s : ModelState) :
    ((move_book_to_end ctx raw s).stateOf).current_selection_number
        = s.current_selection_number ∧
    ((move_book_to_end ctx raw s).isOk = false →
      ((move_book_to_end ctx raw s).stateOf).reading_list = s.reading_list) := by
  unfold move_book_to_end
  rcases check_if_empty_cases s with hc | hc <;> rw [hc]
  · simp only
    cases hv : validate_book_id ctx raw true s with
    | exn s1 e =>
      have h := validate_book_id_fields ctx raw true s
      rw [hv] at h
      simp only [PyResult.stateOf] at h ⊢
      exact ⟨h.2.1, fun _ => h.1⟩
    | ok s1 bid =>
      have h := validate_book_id_fields ctx raw true s
      rw [hv] at h
      simp only [PyResult.stateOf] at h
      simp only []
      cases hlr : list_remove s1.reading_list bid with
      | none =>
        simp only [hlr, PyResult.stateOf, PyResult.isOk]
        exact ⟨h.2.1, fun _ => h.1⟩
      | some l =>
        simp only [hlr, PyResult.stateOf, PyResult.isOk]
        exact ⟨h.2.1, by simp⟩
  · simp [PyResult.stateOf, PyResult.isOk]

/-- `move_book_to_selection_number` never touches the cursor, and leaves
the list untouched when it fails. -/
theorem move_book_to_selection_number_frame (ctx : Ctx) (raw rawn : Option Int)
    (s : ModelState) :
    ((move_book_to_selection_number ctx raw rawn s).stateOf).current_selection_number
        = s.current_selection_number ∧
    ((move_book_to_selection_number ctx raw rawn s).isOk = false →
      ((move_book_to_selection_number ctx raw rawn s).stateOf).reading_list
        = s.reading_list) := by
  unfold move_book_to_selection_number
  rcases check_if_empty_cases s with hc | hc <;> rw [hc]
  · simp only
    cases hv : validate_book_id ctx raw true s with
    | exn s1 e =>
      have h := validate_book_id_fields ctx raw true s
      rw [hv] at h
      simp only [PyResult.stateOf] at h ⊢
      exact ⟨h.2.1, fun _ => h.1⟩
    | ok s1 bid =>
      have h := validate_book_id_fields ctx raw true s
      rw [hv] at h
      simp only [PyResult.stateOf] at h
      simp only []
      cases hn : validate_selection_number rawn s1 with
      | exn s2 e =>
        have h2 := validate_selection_number_stateOf rawn s1
        rw [hn] at h2
        simp only [PyResult.stateOf] at h2
        simp only [PyResult.stateOf, PyResult.isOk]
        rw [h2]
        exact ⟨h.2.1, fun _ => h.1⟩
      | ok s2 n =>
        have h2 := validate_selection_number_stateOf rawn s1
        rw [hn] at h2
        simp only [PyResult.stateOf] at h2
        rw [h2]
        cases hlr : list_remove s1.reading_list bid with
        | none =>
          simp only [hlr, PyResult.stateOf, PyResult.isOk]
          exact ⟨h.2.1, fun _ => h.1⟩
        | some l =>
          simp only [hlr, PyResult.stateOf, PyResult.isOk]
          exact ⟨h.2.1, by simp⟩
  · simp [PyResult.stateOf, PyResult.isOk]

/-- `swap_books_in_reading_list` never touches the cursor, and leaves the
list untouched when it fails. -/
theorem swap_frame (ctx : Ctx) (raw1 raw2 : Option Int) (s : ModelState) :
    ((swap_books_in_reading_list ctx raw1 raw2 s).stateOf).current_selection_number
        = s.current_selection_number ∧
    ((swap_books_in_reading_list ctx raw1 raw2 s).isOk = false →
      ((swap_books_in_reading_list ctx raw1 raw2 s).stateOf).reading_list
        = s.reading_list) := by
  unfold swap_books_in_reading_list
  rcases check_if_empty_cases s with hc | hc <;> rw [hc]
  · simp only
    cases hv : validate_book_id ctx raw1 true s with
    | exn s1 e =>
      have h := validate_book_id_fields ctx raw1 true s
      rw [hv] at h
      simp only [PyResult.stateOf] at h ⊢
      exact ⟨h.2.1, fun _ => h.1⟩
    | ok s1 b1 =>
      have h := validate_book_id_fields ctx raw1 true s
      rw [hv] at h
      simp only [PyResult.stateOf] at h
      simp only []
      cases hv2 : validate_book_id ctx raw2 true s1 with
      | exn s2 e =>
        have h2 := validate_book_id_fields ctx raw2 true s1
        rw [hv2] at h2
        simp only [PyResult.stateOf] at h2
        simp only [PyResult.stateOf, PyResult.isOk]
        exact ⟨h2.2.1.trans h.2.1, fun _ => h2.1.trans h.1⟩
      | ok s2 b2 =>
        have h2 := validate_book_id_fields ctx raw2 true s1
        rw [hv2] at h2
        simp only [PyResult.stateOf] at h2
        simp only []
        split
        · simp only [PyResult.stateOf, PyResult.isOk]
          exact ⟨h2.2.1.trans h.2.1, fun _ => h2.1.trans h.1⟩
        · simp only [PyResult.stateOf, PyResult.isOk]
          exact ⟨h2.2.1.trans h.2.1, by simp⟩
  · simp [PyResult.stateOf, PyResult.isOk]

/-- `read_current_book`: the list is never touched; on failure the cursor
is untouched; the cursor never drops below 1. -/
theorem read_current_book_frame (ctx : Ctx) (s : ModelState) :
    ((read_current_book ctx s).stateOf).reading_list = s.reading_list ∧
    ((read_current_book ctx s).isOk = false →
      ((read_current_book ctx s).stateOf).current_selection_number
        = s.current_selection_number) ∧
    (1 ≤ s.current_selection_number →
      1 ≤ ((read_current_book ctx s).stateOf).current_selection_number) := by
  unfold read_current_book
  rcases check_if_empty_cases s with hc | hc <;> rw [hc]
  · simp only
    cases hg : get_book_by_selection_number ctx (some s.current_selection_number) s with
    | exn s1 e =>
      have h := get_book_by_selection_number_frame ctx (some s.current_selection_number) s
      rw [hg] at h
      simp only [PyResult.stateOf] at h
      simp only [PyResult.stateOf, PyResult.isOk]
      exact ⟨h.1, fun _ => h.2, fun hcv => h.2 ▸ hcv⟩
    | ok s1 b =>
      have h := get_book_by_selection_number_frame ctx (some s.current_selection_number) s
      rw [hg] at h
      simp only [PyResult.stateOf] at h
      simp only [PyResult.stateOf, PyResult.isOk, update_read_count]
      have hne : s.reading_list ≠ [] := by
        unfold check_if_empty at hc
        by_cases hemp : s.reading_list = []
        · rw [if_pos hemp] at hc; simp at hc
        · exact hemp
      refine ⟨h.1, by simp, fun _ => ?_⟩
      have hlen : (0 : Int) < (s1.reading_list.length : Int) := by
        rw [h.1]
        cases hl : s.reading_list with
        | nil => exact absurd hl hne
        | cons a as => simp
      have := Int.emod_nonneg s1.current_selection_number (by omega :
        (s1.reading_list.length : Int) ≠ 0)
      omega
  · simp [PyResult.stateOf, PyResult.isOk]

/-- `read_loop`: the list is never touched and the cursor never drops
below 1. -/
theorem read_loop_frame (ctx : Ctx) (k : Nat) (s : ModelState) :
    ((read_loop ctx k s).stateOf).reading_list = s.reading_list ∧
    (1 ≤ s.current_selection_number →
      1 ≤ ((read_loop ctx k s).stateOf).current_selection_number) := by
  induction k generalizing s with
  | zero => exact ⟨rfl, fun h => h⟩
  | succ k' ih =>
    unfold read_loop
    cases hr : read_current_book ctx s with
    | exn s1 e =>
      have h := read_current_book_frame ctx s
      rw [hr] at h
      simp only [PyResult.stateOf] at h
      simp only [PyResult.stateOf]
      exact ⟨h.1, h.2.2⟩
    | ok s1 u =>
      have h := read_current_book_frame ctx s
      rw [hr] at h
      simp only [PyResult.stateOf] at h
      have h2 := ih s1
      exact ⟨h2.1.trans h.1, fun hcv => h2.2 (h.2.2 hcv)⟩

/-- `read_entire_reading_list`: the list is never touched (even on a
partial failure) and the cursor never drops below 1. -/
theorem read_entire_reading_list_frame (ctx : Ctx) (s : ModelState) :
    ((read_entire_reading_list ctx s).stateOf).reading_list = s.reading_list ∧
    (1 ≤ s.current_selection_number →
      1 ≤ ((read_entire_reading_list ctx s).stateOf).current_selection_number) := by
  unfold read_entire_reading_list
  rcases check_if_empty_cases s with hc | hc <;> rw [hc]
  · simp only
    have h := read_loop_frame ctx s.reading_list.length
      { s with current_selection_number := 1 }
    exact ⟨h.1, fun _ => h.2 (by simp)⟩
  · exact ⟨rfl, fun h => h⟩

/-- `read_rest_of_reading_list`: the list is never touched (even on a
partial failure) and the cursor never drops below 1. -/
theorem read_rest_of_reading_list_frame (ctx : Ctx) (s : ModelState) :
    ((read_rest_of_reading_list ctx s).stateOf).reading_list = s.reading_list ∧
    (1 ≤ s.current_selection_number →
      1 ≤ ((read_rest_of_reading_list ctx s).stateOf).current_selection_number) := by
  unfold read_rest_of_reading_list
  rcases check_if_empty_cases s with hc | hc <;> rw [hc]
  · simp only
    exact read_loop_frame ctx _ s
  · exact ⟨rfl, fun h => h⟩

/-- On success `validate_selection_number` returns the parsed value, in
range, with the state untouched. -/
theorem validate_selection_number_ok_bounds (raw : Option Int) (s s' : ModelState)
    (n : Int) (h : validate_selection_number raw s = .ok s' n) :
    s' = s ∧ raw = some n ∧ 1 ≤ n ∧ n ≤ (s.reading_list.length : Int) := by
  unfold validate_selection_number at h
  cases raw with
  | none => simp at h
  | some m =>
    simp only at h
    split at h
    · rename_i hcond
      simp only [PyResult.ok.injEq] at h
      obtain ⟨h1, h2⟩ := h
      subst h2
      exact ⟨h1.symm, rfl, hcond.1, hcond.2⟩
    · simp at h

/-!  Claim C8. -/

/-- C8: `validate_selection_number` parses its argument as an integer and
fails with the InvalidPosition error (`invalidSelection`) exactly when the
argument is unparseable (`none`) or the parsed value lies outside
`[1, length]`; on success it mutates nothing and returns the normalized
value.  On an empty collection every position is invalid; on the 2-item
collection `stateAB`, 0 and 3 fail while 1 and 2 succeed. -/
theorem C8_validate_selection_number_contract :
    (∀ (raw : Option Int) (s s' : ModelState) (v : Int),
        validate_selection_number raw s = .ok s' v ↔
          s' = s ∧ raw = some v ∧ 1 ≤ v ∧ v ≤ (s.reading_list.length : Int)) ∧
    (∀ (raw : Option Int) (s : ModelState),
        (∃ v, validate_selection_number raw s = .ok s v) ∨
          validate_selection_number raw s = .exn s (.invalidSelection raw)) ∧
    (∀ (raw : Option Int) (s : ModelState), s.reading_list = [] →
        validate_selection_number raw s = .exn s (.invalidSelection raw)) ∧
    validate_selection_number (some 0) stateAB = .exn stateAB (.invalidSelection (some 0)) ∧
    validate_selection_number (some 3) stateAB = .exn stateAB (.invalidSelection (some 3)) ∧
    validate_selection_number (some 1) stateAB = .ok stateAB 1 ∧
    validate_selection_number (some 2) stateAB = .ok stateAB 2 := by
  refine ⟨?_, ?_, ?_, by decide, by decide, by decide, by decide⟩
  · intro raw s s' v
    unfold validate_selection_number
    cases raw with
    | none => simp
    | some n =>
      simp only
      split
      · rename_i hcond
        simp only [PyResult.ok.injEq, Option.some.injEq]
        constructor
        · rintro ⟨rfl, rfl⟩
          exact ⟨rfl, rfl, hcond.1, hcond.2⟩
        · rintro ⟨rfl, h2, -, -⟩
          exact ⟨rfl, h2⟩
      · rename_i hcond
        constructor
        · intro h
          simp at h
        · rintro ⟨rfl, h2, h3, h4⟩
          cases h2
          exact absurd ⟨h3, h4⟩ hcond
  · intro raw s
    unfold validate_selection_number
    cases raw with
    | none => exact Or.inr rfl
    | some n =>
      simp only
      split
      · exact Or.inl ⟨n, rfl⟩
      · exact Or.inr rfl
  · intro raw s h
    unfold validate_selection_number
    cases raw with
    | none => rfl
    | some n =>
      simp only
      split
      · rename_i hcond
        exfalso
        rw [h] at hcond
        simp at hcond
        omega
      · rfl

/-- Concrete instantiation of C8: position 1 is accepted on the 2-item
collection, every position is rejected on the empty initial state. -/
theorem C8_witness :
    validate_selection_number (some 1) stateAB = .ok stateAB 1 ∧
    validate_selection_number (some 7) (initState 60) =
      .exn (initState 60) (.invalidSelection (some 7)) :=
  ⟨(C8_validate_selection_number_contract.1 (some 1) stateAB stateAB 1).mpr
      ⟨rfl, rfl, by decide, by decide⟩,
   C8_validate_selection_number_contract.2.2.1 (some 7) (initState 60) rfl⟩

/-!  Claim C10. -/

/-- C10: when `validate_book_id` (with its default membership check)
returns normally, the returned id is a member of the reading list of the
post-validation state, so the membership re-check in
`remove_book_by_book_id` never fires: no run of that method raises the
"Book with ID ... not found in the reading list" error. -/
theorem C10_remove_recheck_unreachable :
    (∀ (ctx : Ctx) (raw : Option Int) (s s' : ModelState) (bid : Int),
        validate_book_id ctx raw true s = .ok s' bid → bid ∈ s'.reading_list) ∧
    (∀ (ctx : Ctx) (raw : Option Int) (s s' : ModelState) (e : PyErr) (b : Int),
        remove_book_by_book_id ctx raw s = .exn s' e → e ≠ .removeNotFound b) := by
  have hmem : ∀ (ctx : Ctx) (raw : Option Int) (s s' : ModelState) (bid : Int),
      validate_book_id ctx raw true s = .ok s' bid → bid ∈ s'.reading_list := by
    intro ctx raw s s' bid h
    have h1 := (validate_book_id_ok ctx raw true s s' bid h).2.2 rfl
    have h2 := (validate_book_id_fields ctx raw true s).1
    rw [h] at h2
    simp only [PyResult.stateOf] at h2
    rw [h2]
    exact h1
  refine ⟨hmem, ?_⟩
  intro ctx raw s s' e b h
  unfold remove_book_by_book_id check_if_empty at h
  by_cases hemp : s.reading_list = []
  · rw [if_pos hemp] at h
    simp only [PyResult.exn.injEq] at h
    rw [← h.2]
    simp
  · rw [if_neg hemp] at h
    simp only at h
    cases hv : validate_book_id ctx raw true s with
    | exn s2 e2 =>
      rw [hv] at h
      simp only [PyResult.exn.injEq] at h
      rcases validate_book_id_exn_shape ctx raw true s s2 e2 hv with
        ⟨r, rfl⟩ | ⟨bb, rfl⟩ | ⟨bb, rfl⟩ <;> (rw [← h.2]; simp)
    | ok s2 bid =>
      rw [hv] at h
      simp only at h
      have hm : bid ∈ s2.reading_list := hmem ctx raw s s2 bid hv
      rw [if_neg (not_not_intro hm)] at h
      simp only [list_remove, if_pos hm] at h
      simp at h

/-- Concrete instantiation of C10: validation of id 1 on the cached 2-item
state succeeds and 1 is indeed in the list; the failing remove on the empty
state raises EmptyCollection, which is not the re-check error. -/
theorem C10_witness :
    (1 : Int) ∈ stateABCached.reading_list ∧
    PyErr.emptyList ≠ PyErr.removeNotFound 1 :=
  ⟨C10_remove_recheck_unreachable.1 ctxAB (some 1) stateABCached stateABCached 1 (by decide),
   C10_remove_recheck_unreachable.2 ctxAB (some 1) (initState 60) (initState 60)
      .emptyList 1 (by decide)⟩

/-!  Claim C3. -/

/-- C3 counterexample: on the empty collection, `swap(1, 1)` raises the
EmptyCollection error, not SelfSwap, refuting "for every state ... fails
with the SelfSwap error". -/
theorem C3_counterexample :
    swap_books_in_reading_list ctxAB (some 1) (some 1) (initState 60) =
      .exn (initState 60) .emptyList ∧
    PyErr.emptyList ≠ PyErr.selfSwap 1 := by
  decide

/-- C3 amended: `swap(a, a)` fails SelfSwap provided the collection is
non-empty and `a` is a non-negative id, present in the collection, that the
store resolves; an empty collection fails EmptyCollection first and an
absent or unresolvable id fails its validation first. -/
theorem C3_amended_selfswap (ctx : Ctx) (a : Int) (s : ModelState)
    (hne : s.reading_list ≠ []) (ha : 0 ≤ a) (hmem : a ∈ s.reading_list)
    (hdb : (ctx.db a).isSome = true) :
    ∃ s', swap_books_in_reading_list ctx (some a) (some a) s =
      .exn s' (.selfSwap a) := by
  unfold swap_books_in_reading_list check_if_empty
  rw [if_neg hne]
  simp only
  obtain ⟨s1, hv1⟩ := validate_book_id_succeeds ctx a true s ha (fun _ => hmem) hdb
  rw [hv1]
  simp only
  have hmem1 : a ∈ s1.reading_list := by
    have h2 := (validate_book_id_fields ctx (some a) true s).1
    rw [hv1] at h2
    simp only [PyResult.stateOf] at h2
    rw [h2]
    exact hmem
  obtain ⟨s2, hv2⟩ := validate_book_id_succeeds ctx a true s1 ha (fun _ => hmem1) hdb
  rw [hv2]
  simp only [if_pos rfl]
  exact ⟨s2, rfl⟩

/-- Concrete instantiation of the amended C3: swapping book 1 with itself
on the 2-item collection fails SelfSwap. -/
theorem C3_witness :
    ∃ s', swap_books_in_reading_list ctxAB (some 1) (some 1) stateAB =
      .exn s' (.selfSwap 1) :=
  C3_amended_selfswap ctxAB 1 stateAB (by decide) (by decide) (by decide) (by decide)

/-!  Claim C6. -/

/-- C6: the duplicate module's class body assigns `get_reading_list_length`
twice; attribute lookup resolves to the later, page-summing definition, not
the id-count one, and on the 2-book collection the two disagree (500 pages
against a count of 2). -/
theorem C6_later_length_definition_wins :
    methodDictGet origClassDict "get_reading_list_length" =
      some orig_get_reading_list_length_pages ∧
    (orig_get_reading_list_length_pages ctxAB stateAB).valOf = some 500 ∧
    (orig_get_reading_list_length_count ctxAB stateAB).valOf = some 2 ∧
    (2 : Nat) < 500 :=
  ⟨rfl, by decide, by decide, by decide⟩

/-!  Claim C5. -/

/-- C5: after a get at `t1` that missed the cache (and so populated the
entry with expiry `t1 + ttl_seconds`), a second get of the same id at
`t2 < t1 + ttl_seconds` returns the cached item with the state unchanged
(in particular no store fetch), while a get at `t2 ≥ t1 + ttl_seconds`
fetches from the store again. -/
theorem C5_ttl_cache_behavior (db : Int → Option Books) (g : Nat → Int)
    (t1 t2 : Nat) (book_id : Int) (s s1 : ModelState) (b : Books)
    (ht : t1 < t2)
    (hmiss : (dictGet s.book_cache book_id).isSome = false ∨
      (dictGet s.ttl book_id).getD 0 ≤ t1)
    (h1 : _get_book_from_cache_or_db ⟨db, g, t1⟩ book_id s = .ok s1 b) :
    dictGet s1.ttl book_id = some (t1 + s.ttl_seconds) ∧
    (t2 < t1 + s.ttl_seconds →
      _get_book_from_cache_or_db ⟨db, g, t2⟩ book_id s1 = .ok s1 b) ∧
    (t1 + s.ttl_seconds ≤ t2 →
      ∃ s2, _get_book_from_cache_or_db ⟨db, g, t2⟩ book_id s1 = .ok s2 b ∧
        s2.dbFetches = s1.dbFetches ++ [book_id]) := by
  have hfetch : ∃ book, db book_id = some book ∧
      s1 = { s with dbFetches := s.dbFetches ++ [book_id]
                    book_cache := dictSet s.book_cache book_id book
                    ttl := dictSet s.ttl book_id (t1 + s.ttl_seconds) } ∧ b = book := by
    unfold _get_book_from_cache_or_db Books.get_book_by_id at h1
    cases hc : dictGet s.book_cache book_id with
    | some cached =>
      rw [hc] at h1
      simp only at h1
      have hstale : ¬ (dictGet s.ttl book_id).getD 0 > (Ctx.mk db g t1).now := by
        rcases hmiss with hm | hm
        · rw [hc] at hm; simp at hm
        · simp only []
          omega
      rw [if_neg hstale] at h1
      simp only at h1
      cases hb : db book_id with
      | none => rw [hb] at h1; simp at h1
      | some book =>
        rw [hb] at h1
        simp only [PyResult.ok.injEq] at h1
        exact ⟨book, rfl, h1.1.symm, h1.2.symm⟩
    | none =>
      rw [hc] at h1
      simp only at h1
      cases hb : db book_id with
      | none => rw [hb] at h1; simp at h1
      | some book =>
        rw [hb] at h1
        simp only [PyResult.ok.injEq] at h1
        exact ⟨book, rfl, h1.1.symm, h1.2.symm⟩
  obtain ⟨book, hb, hs1, hbb⟩ := hfetch
  subst hbb
  have httl : dictGet s1.ttl book_id = some (t1 + s.ttl_seconds) := by
    rw [hs1]
    simp only []
    rw [dictGet_dictSet]
    simp
  have hcache : dictGet s1.book_cache book_id = some b := by
    rw [hs1]
    simp only []
    rw [dictGet_dictSet]
    simp
  refine ⟨httl, ?_, ?_⟩
  · intro hfresh
    unfold _get_book_from_cache_or_db
    rw [hcache]
    simp only
    rw [if_pos (by rw [httl]; simp only [Option.getD_some]; omega)]
  · intro hstale2
    unfold _get_book_from_cache_or_db Books.get_book_by_id
    rw [hcache]
    simp only
    rw [if_neg (by rw [httl]; simp only [Option.getD_some]; omega)]
    simp only [hb]
    exact ⟨_, rfl, rfl⟩

/-- Concrete instantiation of C5 over the two-book store: a cold get of
book 1 at instant 1000, a cache hit at 1030, a re-fetch at 1060. -/
theorem C5_witness :
    _get_book_from_cache_or_db { db := dbAB, get_random := fun _ => 1, now := 1030 } 1
        ((_get_book_from_cache_or_db ctxAB 1 stateAB).stateOf) =
      .ok ((_get_book_from_cache_or_db ctxAB 1 stateAB).stateOf) bookA ∧
    (∃ s2, _get_book_from_cache_or_db { db := dbAB, get_random := fun _ => 1, now := 1060 } 1
        ((_get_book_from_cache_or_db ctxAB 1 stateAB).stateOf) = .ok s2 bookA ∧
      s2.dbFetches = ((_get_book_from_cache_or_db ctxAB 1 stateAB).stateOf).dbFetches ++ [1]) :=
  ⟨(C5_ttl_cache_behavior dbAB (fun _ => 1) 1000 1030 1 stateAB
      ((_get_book_from_cache_or_db ctxAB 1 stateAB).stateOf) bookA (by decide)
      (Or.inl (by decide)) (by decide)).2.1 (by decide),
   (C5_ttl_cache_behavior dbAB (fun _ => 1) 1000 1060 1 stateAB
      ((_get_book_from_cache_or_db ctxAB 1 stateAB).stateOf) bookA (by decide)
      (Or.inl (by decide)) (by decide)).2.2 (by decide)⟩

/-!  Claim C9. -/

/-- C9: every successful collection-mutating operation (add, removeById,
removeByPosition, clear, moveToBeginning, moveToEnd, moveToPosition, swap)
leaves the cursor unchanged; in particular `clear` empties the collection
while the cursor keeps its previous value rather than being reset to 1. -/
theorem C9_mutators_preserve_cursor :
    (∀ (ctx : Ctx) (raw : Option Int) (s s' : ModelState) (u : Unit),
        add_book_to_reading_list ctx raw s = .ok s' u →
          s'.current_selection_number = s.current_selection_number) ∧
    (∀ (ctx : Ctx) (raw : Option Int) (s s' : ModelState) (u : Unit),
        remove_book_by_book_id ctx raw s = .ok s' u →
          s'.current_selection_number = s.current_selection_number) ∧
    (∀ (ctx : Ctx) (raw : Option Int) (s s' : ModelState) (u : Unit),
        remove_book_by_selection_number ctx raw s = .ok s' u →
          s'.current_selection_number = s.current_selection_number) ∧
    (∀ (ctx : Ctx) (s s' : ModelState) (u : Unit),
        clear_reading_list ctx s = .ok s' u →
          s'.current_selection_number = s.current_selection_number ∧
          s'.reading_list = []) ∧
    (∀ (ctx : Ctx) (raw : Option Int) (s s' : ModelState) (u : Unit),
        move_book_to_beginning ctx raw s = .ok s' u →
          s'.current_selection_number = s.current_selection_number) ∧
    (∀ (ctx : Ctx) (raw : Option Int) (s s' : ModelState) (u : Unit),
        move_book_to_end ctx raw s = .ok s' u →
          s'.current_selection_number = s.current_selection_number) ∧
    (∀ (ctx : Ctx) (raw rawn : Option Int) (s s' : ModelState) (u : Unit),
        move_book_to_selection_number ctx raw rawn s = .ok s' u →
          s'.current_selection_number = s.current_selection_number) ∧
    (∀ (ctx : Ctx) (raw1 raw2 : Option Int) (s s' : ModelState) (u : Unit),
        swap_books_in_reading_list ctx raw1 raw2 s = .ok s' u →
          s'.current_selection_number = s.current_selection_number) := by
  constructor
  · intro ctx raw s s' u h
    have hf := (add_frame ctx raw s).1
    rw [h] at hf
    simpa [PyResult.stateOf] using hf
  constructor
  · intro ctx raw s s' u h
    have hf := (remove_book_by_book_id_frame ctx raw s).1
    rw [h] at hf
    simpa [PyResult.stateOf] using hf
  constructor
  · intro ctx raw s s' u h
    have hf := (remove_book_by_selection_number_frame ctx raw s).1
    rw [h] at hf
    simpa [PyResult.stateOf] using hf
  constructor
  · intro ctx s s' u h
    have hf := clear_frame ctx s
    rw [h] at hf
    simp only [PyResult.stateOf] at hf
    exact ⟨hf.1, hf.2.2⟩
  constructor
  · intro ctx raw s s' u h
    have hf := (move_book_to_beginning_frame ctx raw s).1
    rw [h] at hf
    simpa [PyResult.stateOf] using hf
  constructor
  · intro ctx raw s s' u h
    have hf := (move_book_to_end_frame ctx raw s).1
    rw [h] at hf
    simpa [PyResult.stateOf] using hf
  constructor
  · intro ctx raw rawn s s' u h
    have hf := (move_book_to_selection_number_frame ctx raw rawn s).1
    rw [h] at hf
    simpa [PyResult.stateOf] using hf
  · intro ctx raw1 raw2 s s' u h
    have hf := (swap_frame ctx raw1 raw2 s).1
    rw [h] at hf
    simpa [PyResult.stateOf] using hf

/-- Concrete instantiation of C9: clearing the 2-item collection with
cursor 2 empties the list and keeps the cursor at 2. -/
theorem C9_witness :
    ({ stateAB with reading_list := ([] : List Int) }).current_selection_number
        = stateAB.current_selection_number ∧
    ({ stateAB with reading_list := ([] : List Int) }).reading_list = [] :=
  C9_mutators_preserve_cursor.2.2.2.1 ctxAB stateAB
    { stateAB with reading_list := ([] : List Int) } () (by decide)

/-!  Claim C1. -/

/-- C1 counterexample: `read_entire_reading_list` over a store that cannot
resolve the listed ids fails partway, after having already reset the cursor
from 2 to 1 — the cursor is not restored, refuting "readAll failing partway
through must leave both unchanged". -/
theorem C1_counterexample :
    (read_entire_reading_list ctxNone stateAB).isOk = false ∧
    ((read_entire_reading_list ctxNone stateAB).stateOf).current_selection_number = 1 ∧
    stateAB.current_selection_number = 2 := by
  decide

/-- C1 amended: every public operation except `read_entire_reading_list`
and `read_rest_of_reading_list` leaves the reading list and the cursor
exactly as they were whenever it fails; the two loop operations still leave
the reading list unchanged on failure, but may leave the cursor moved (the
counterexample above shows readAll failing with the cursor reset to 1). -/
theorem C1_amended_failure_frames :
    (∀ (ctx : Ctx) (raw : Option Int) (s s' : ModelState) (e : PyErr),
        add_book_to_reading_list ctx raw s = .exn s' e →
          s'.reading_list = s.reading_list ∧
          s'.current_selection_number = s.current_selection_number) ∧
    (∀ (ctx : Ctx) (raw : Option Int) (s s' : ModelState) (e : PyErr),
        remove_book_by_book_id ctx raw s = .exn s' e →
          s'.reading_list = s.reading_list ∧
          s'.current_selection_number = s.current_selection_number) ∧
    (∀ (ctx : Ctx) (raw : Option Int) (s s' : ModelState) (e : PyErr),
        remove_book_by_selection_number ctx raw s = .exn s' e →
          s'.reading_list = s.reading_list ∧
          s'.current_selection_number = s.current_selection_number) ∧
    (∀ (ctx : Ctx) (s s' : ModelState) (e : PyErr),
        clear_reading_list ctx s = .exn s' e → False) ∧
    (∀ (ctx : Ctx) (s s' : ModelState) (e : PyErr),
        get_all_books ctx s = .exn s' e →
          s'.reading_list = s.reading_list ∧
          s'.current_selection_number = s.current_selection_number) ∧
    (∀ (ctx : Ctx) (raw : Option Int) (s s' : ModelState) (e : PyErr),
        get_book_by_book_id ctx raw s = .exn s' e →
          s'.reading_list = s.reading_list ∧
          s'.current_selection_number = s.current_selection_number) ∧
    (∀ (ctx : Ctx) (raw : Option Int) (s s' : ModelState) (e : PyErr),
        get_book_by_selection_number ctx raw s = .exn s' e →
          s'.reading_list = s.reading_list ∧
          s'.current_selection_number = s.current_selection_number) ∧
    (∀ (ctx : Ctx) (s s' : ModelState) (e : PyErr),
        get_current_book ctx s = .exn s' e →
          s'.reading_list = s.reading_list ∧
          s'.current_selection_number = s.current_selection_number) ∧
    (∀ (s s' : ModelState) (e : PyErr),
        get_reading_list_length s = .exn s' e → False) ∧
    (∀ (ctx : Ctx) (s s' : ModelState) (e : PyErr),
        get_reading_list_page_count ctx s = .exn s' e →
          s'.reading_list = s.reading_list ∧
          s'.current_selection_number = s.current_selection_number) ∧
    (∀ (ctx : Ctx) (raw : Option Int) (s s' : ModelState) (e : PyErr),
        go_to_selection_number ctx raw s = .exn s' e →
          s'.reading_list = s.reading_list ∧
          s'.current_selection_number = s.current_selection_number) ∧
    (∀ (ctx : Ctx) (s s' : ModelState) (e : PyErr),
        go_to_random_selection ctx s = .exn s' e →
          s'.reading_list = s.reading_list ∧
          s'.current_selection_number = s.current_selection_number) ∧
    (∀ (ctx : Ctx) (raw : Option Int) (s s' : ModelState) (e : PyErr),
        move_book_to_beginning ctx raw s = .exn s' e →
          s'.reading_list = s.reading_list ∧
          s'.current_selection_number = s.current_selection_number) ∧
    (∀ (ctx : Ctx) (raw : Option Int) (s s' : ModelState) (e : PyErr),
        move_book_to_end ctx raw s = .exn s' e →
          s'.reading_list = s.reading_list ∧
          s'.current_selection_number = s.current_selection_number) ∧
    (∀ (ctx : Ctx) (raw rawn : Option Int) (s s' : ModelState) (e : PyErr),
        move_book_to_selection_number ctx raw rawn s = .exn s' e →
          s'.reading_list = s.reading_list ∧
          s'.current_selection_number = s.current_selection_number) ∧
    (∀ (ctx : Ctx) (raw1 raw2 : Option Int) (s s' : ModelState) (e : PyErr),
        swap_books_in_reading_list ctx raw1 raw2 s = .exn s' e →
          s'.reading_list = s.reading_list ∧
          s'.current_selection_number = s.current_selection_number) ∧
    (∀ (ctx : Ctx) (s s' : ModelState) (e : PyErr),
        read_current_book ctx s = .exn s' e →
          s'.reading_list = s.reading_list ∧
          s'.current_selection_number = s.current_selection_number) ∧
    (∀ (ctx : Ctx) (s s' : ModelState) (e : PyErr),
        rewind_reading_list ctx s = .exn s' e →
          s'.reading_list = s.reading_list ∧
          s'.current_selection_number = s.current_selection_number) ∧
    (∀ (ctx : Ctx) (s s' : ModelState) (e : PyErr),
        read_entire_reading_list ctx s = .exn s' e →
          s'.reading_list = s.reading_list) ∧
    (∀ (ctx : Ctx) (s s' : ModelState) (e : PyErr),
        read_rest_of_reading_list ctx s = .exn s' e →
          s'.reading_list = s.reading_list) := by
  constructor
  · intro ctx raw s s' e h
    have hf := add_frame ctx raw s
    rw [h] at hf
    simp only [PyResult.stateOf, PyResult.isOk] at hf
    exact ⟨hf.2 trivial, hf.1⟩
  constructor
  · intro ctx raw s s' e h
    have hf := remove_book_by_book_id_frame ctx raw s
    rw [h] at hf
    simp only [PyResult.stateOf, PyResult.isOk] at hf
    exact ⟨hf.2 trivial, hf.1⟩
  constructor
  · intro ctx raw s s' e h
    have hf := remove_book_by_selection_number_frame ctx raw s
    rw [h] at hf
    simp only [PyResult.stateOf, PyResult.isOk] at hf
    exact ⟨hf.2 trivial, hf.1⟩
  constructor
  · intro ctx s s' e h
    have hf := (clear_frame ctx s).2.1
    rw [h] at hf
    simp [PyResult.isOk] at hf
  constructor
  · intro ctx s s' e h
    have hf := get_all_books_frame ctx s
    rw [h] at hf
    simpa [PyResult.stateOf] using hf
  constructor
  · intro ctx raw s s' e h
    have hf := get_book_by_book_id_frame ctx raw s
    rw [h] at hf
    simpa [PyResult.stateOf] using hf
  constructor
  · intro ctx raw s s' e h
    have hf := get_book_by_selection_number_frame ctx raw s
    rw [h] at hf
    simpa [PyResult.stateOf] using hf
  constructor
  · intro ctx s s' e h
    have hf := get_current_book_frame ctx s
    rw [h] at hf
    simpa [PyResult.stateOf] using hf
  constructor
  · intro s s' e h
    have hf := get_reading_list_length_frame s
    rw [h] at hf
    unfold get_reading_list_length at h
    simp at h
  constructor
  · intro ctx s s' e h
    have hf := get_reading_list_page_count_frame ctx s
    rw [h] at hf
    simpa [PyResult.stateOf] using hf
  constructor
  · intro ctx raw s s' e h
    have hf := go_to_selection_number_frame ctx raw s
    rw [h] at hf
    simp only [PyResult.stateOf, PyResult.isOk] at hf
    exact ⟨hf.1, hf.2.1 trivial⟩
  constructor
  · intro ctx s s' e h
    have hf := go_to_random_selection_frame ctx s
    rw [h] at hf
    simp only [PyResult.stateOf, PyResult.isOk] at hf
    exact ⟨hf.1, hf.2.1 trivial⟩
  constructor
  · intro ctx raw s s' e h
    have hf := move_book_to_beginning_frame ctx raw s
    rw [h] at hf
    simp only [PyResult.stateOf, PyResult.isOk] at hf
    exact ⟨hf.2 trivial, hf.1⟩
  constructor
  · intro ctx raw s s' e h
    have hf := move_book_to_end_frame ctx raw s
    rw [h] at hf
    simp only [PyResult.stateOf, PyResult.isOk] at hf
    exact ⟨hf.2 trivial, hf.1⟩
  constructor
  · intro ctx raw rawn s s' e h
    have hf := move_book_to_selection_number_frame ctx raw rawn s
    rw [h] at hf
    simp only [PyResult.stateOf, PyResult.isOk] at hf
    exact ⟨hf.2 trivial, hf.1⟩
  constructor
  · intro ctx raw1 raw2 s s' e h
    have hf := swap_frame ctx raw1 raw2 s
    rw [h] at hf
    simp only [PyResult.stateOf, PyResult.isOk] at hf
    exact ⟨hf.2 trivial, hf.1⟩
  constructor
  · intro ctx s s' e h
    have hf := read_current_book_frame ctx s
    rw [h] at hf
    simp only [PyResult.stateOf, PyResult.isOk] at hf
    exact ⟨hf.1, hf.2.1 trivial⟩
  constructor
  · intro ctx s s' e h
    have hf := rewind_frame ctx s
    rw [h] at hf
    simp only [PyResult.stateOf, PyResult.isOk] at hf
    exact ⟨hf.1, hf.2.1 trivial⟩
  constructor
  · intro ctx s s' e h
    have hf := (read_entire_reading_list_frame ctx s).1
    rw [h] at hf
    simpa [PyResult.stateOf] using hf
  · intro ctx s s' e h
    have hf := (read_rest_of_reading_list_frame ctx s).1
    rw [h] at hf
    simpa [PyResult.stateOf] using hf

/-- Concrete instantiation of the amended C1: removeById failing on a store
miss mutates only the fetch log, leaving list and cursor intact. -/
theorem C1_witness :
    ({ stateAB with dbFetches := [(1 : Int)] }).reading_list = stateAB.reading_list ∧
    ({ stateAB with dbFetches := [(1 : Int)] }).current_selection_number
        = stateAB.current_selection_number :=
  C1_amended_failure_frames.2.1 ctxNone (some 1) stateAB
    { stateAB with dbFetches := [(1 : Int)] } (.validateDbNotFound 1) (by decide)

/-!  Claim C2. -/

/-- C2 counterexample: from the initial state, the successful run
add 1; add 2; goto 2; removeByPosition 2 ends in a non-empty state whose
cursor (2) exceeds the length (1) — removal does not re-clamp the cursor,
so `1 ≤ cursor ≤ length` is not an invariant of the public operations. -/
theorem C2_counterexample :
    (add_book_to_reading_list ctxAB (some 1) (initState 60)).isOk = true ∧
    (add_book_to_reading_list ctxAB (some 2)
      ((add_book_to_reading_list ctxAB (some 1) (initState 60)).stateOf)).isOk = true ∧
    (go_to_selection_number ctxAB (some 2)
      ((add_book_to_reading_list ctxAB (some 2)
        ((add_book_to_reading_list ctxAB (some 1) (initState 60)).stateOf)).stateOf)).isOk
      = true ∧
    (remove_book_by_selection_number ctxAB (some 2)
      ((go_to_selection_number ctxAB (some 2)
        ((add_book_to_reading_list ctxAB (some 2)
          ((add_book_to_reading_list ctxAB (some 1) (initState 60)).stateOf)).stateOf)).stateOf)).isOk
      = true ∧
    ((remove_book_by_selection_number ctxAB (some 2)
      ((go_to_selection_number ctxAB (some 2)
        ((add_book_to_reading_list ctxAB (some 2)
          ((add_book_to_reading_list ctxAB (some 1) (initState 60)).stateOf)).stateOf)).stateOf)).stateOf).reading_list
      = [1] ∧
    ((remove_book_by_selection_number ctxAB (some 2)
      ((go_to_selection_number ctxAB (some 2)
        ((add_book_to_reading_list ctxAB (some 2)
          ((add_book_to_reading_list ctxAB (some 1) (initState 60)).stateOf)).stateOf)).stateOf)).stateOf).current_selection_number
      = 2 := by
  decide

/-- C2 amended: the cursor starts at 1 and `1 ≤ cursor` is preserved by
every public operation (for `go_to_random_selection` under the randomness
provider's contract), on success and on failure alike; but the upper half
of the invariant, `cursor ≤ length` when non-empty, is not preserved: the
removals can leave the cursor strictly beyond the new length (see the
counterexample). -/
theorem C2_amended_cursor_ge_one :
    (∀ t : Nat, (initState t).current_selection_number = 1) ∧
    (∀ (ctx : Ctx) (raw : Option Int) (s : ModelState),
        1 ≤ s.current_selection_number →
        1 ≤ ((add_book_to_reading_list ctx raw s).stateOf).current_selection_number) ∧
    (∀ (ctx : Ctx) (raw : Option Int) (s : ModelState),
        1 ≤ s.current_selection_number →
        1 ≤ ((remove_book_by_book_id ctx raw s).stateOf).current_selection_number) ∧
    (∀ (ctx : Ctx) (raw : Option Int) (s : ModelState),
        1 ≤ s.current_selection_number →
        1 ≤ ((remove_book_by_selection_number ctx raw s).stateOf).current_selection_number) ∧
    (∀ (ctx : Ctx) (s : ModelState),
        1 ≤ s.current_selection_number →
        1 ≤ ((clear_reading_list ctx s).stateOf).current_selection_number) ∧
    (∀ (ctx : Ctx) (s : ModelState),
        1 ≤ s.current_selection_number →
        1 ≤ ((get_all_books ctx s).stateOf).current_selection_number) ∧
    (∀ (ctx : Ctx) (raw : Option Int) (s : ModelState),
        1 ≤ s.current_selection_number →
        1 ≤ ((get_book_by_book_id ctx raw s).stateOf).current_selection_number) ∧
    (∀ (ctx : Ctx) (raw : Option Int) (s : ModelState),
        1 ≤ s.current_selection_number →
        1 ≤ ((get_book_by_selection_number ctx raw s).stateOf).current_selection_number) ∧
    (∀ (ctx : Ctx) (s : ModelState),
        1 ≤ s.current_selection_number →
        1 ≤ ((get_current_book ctx s).stateOf).current_selection_number) ∧
    (∀ (ctx : Ctx) (s : ModelState),
        1 ≤ s.current_selection_number →
        1 ≤ ((get_reading_list_page_count ctx s).stateOf).current_selection_number) ∧
    (∀ (ctx : Ctx) (raw : Option Int) (s : ModelState),
        1 ≤ s.current_selection_number →
        1 ≤ ((go_to_selection_number ctx raw s).stateOf).current_selection_number) ∧
    (∀ (ctx : Ctx) (s : ModelState), RandOK ctx →
        1 ≤ s.current_selection_number →
        1 ≤ ((go_to_random_selection ctx s).stateOf).current_selection_number) ∧
    (∀ (ctx : Ctx) (raw : Option Int) (s : ModelState),
        1 ≤ s.current_selection_number →
        1 ≤ ((move_book_to_beginning ctx raw s).stateOf).current_selection_number) ∧
    (∀ (ctx : Ctx) (raw : Option Int) (s : ModelState),
        1 ≤ s.current_selection_number →
        1 ≤ ((move_book_to_end ctx raw s).stateOf).current_selection_number) ∧
    (∀ (ctx : Ctx) (raw rawn : Option Int) (s : ModelState),
        1 ≤ s.current_selection_number →
        1 ≤ ((move_book_to_selection_number ctx raw rawn s).stateOf).current_selection_number) ∧
    (∀ (ctx : Ctx) (raw1 raw2 : Option Int) (s : ModelState),
        1 ≤ s.current_selection_number →
        1 ≤ ((swap_books_in_reading_list ctx raw1 raw2 s).stateOf).current_selection_number) ∧
    (∀ (ctx : Ctx) (s : ModelState),
        1 ≤ s.current_selection_number →
        1 ≤ ((read_current_book ctx s).stateOf).current_selection_number) ∧
    (∀ (ctx : Ctx) (s : ModelState),
        1 ≤ s.current_selection_number →
        1 ≤ ((read_entire_reading_list ctx s).stateOf).current_selection_number) ∧
    (∀ (ctx : Ctx) (s : ModelState),
        1 ≤ s.current_selection_number →
        1 ≤ ((read_rest_of_reading_list ctx s).stateOf).current_selection_number) ∧
    (∀ (ctx : Ctx) (s : ModelState),
        1 ≤ s.current_selection_number →
        1 ≤ ((rewind_reading_list ctx s).stateOf).current_selection_number) := by
  refine ⟨fun t => rfl, ?_, ?_, ?_, ?_, ?_, ?_, ?_, ?_, ?_, ?_, ?_, ?_, ?_, ?_, ?_,
    ?_, ?_, ?_, ?_⟩
  · intro ctx raw s h
    rw [(add_frame ctx raw s).1]
    exact h
  · intro ctx raw s h
    rw [(remove_book_by_book_id_frame ctx raw s).1]
    exact h
  · intro ctx raw s h
    rw [(remove_book_by_selection_number_frame ctx raw s).1]
    exact h
  · intro ctx s h
    rw [(clear_frame ctx s).1]
    exact h
  · intro ctx s h
    rw [(get_all_books_frame ctx s).2]
    exact h
  · intro ctx raw s h
    rw [(get_book_by_book_id_frame ctx raw s).2]
    exact h
  · intro ctx raw s h
    rw [(get_book_by_selection_number_frame ctx raw s).2]
    exact h
  · intro ctx s h
    rw [(get_current_book_frame ctx s).2]
    exact h
  · intro ctx s h
    rw [(get_reading_list_page_count_frame ctx s).2]
    exact h
  · intro ctx raw s h
    cases hr : go_to_selection_number ctx raw s with
    | exn s1 e =>
      have hf := go_to_selection_number_frame ctx raw s
      rw [hr] at hf
      simp only [PyResult.stateOf, PyResult.isOk] at hf ⊢
      rw [hf.2.1 trivial]
      exact h
    | ok s1 u =>
      have hf := (go_to_selection_number_frame ctx raw s).2.2 s1 u hr
      obtain ⟨n, hv, hcur⟩ := hf
      have hb := validate_selection_number_ok_bounds raw s s n hv
      simp only [PyResult.stateOf]
      omega
  · intro ctx s hrand h
    by_cases hemp : s.reading_list = []
    · have hc : go_to_random_selection ctx s = .exn s .emptyList := by
        unfold go_to_random_selection check_if_empty
        rw [if_pos hemp]
      rw [hc]
      simp only [PyResult.stateOf]
      exact h
    · have hlen : 0 < s.reading_list.length := List.length_pos.mpr hemp
      cases hr : go_to_random_selection ctx s with
      | exn s1 e =>
        have hf := go_to_random_selection_frame ctx s
        rw [hr] at hf
        simp only [PyResult.stateOf, PyResult.isOk] at hf ⊢
        rw [hf.2.1 trivial]
        exact h
      | ok s1 u =>
        have hf := go_to_random_selection_frame ctx s
        rw [hr] at hf
        simp only [PyResult.stateOf, PyResult.isOk] at hf ⊢
        rw [hf.2.2 trivial]
        exact (hrand s.reading_list.length hlen).1
  · intro ctx raw s h
    rw [(move_book_to_beginning_frame ctx raw s).1]
    exact h
  · intro ctx raw s h
    rw [(move_book_to_end_frame ctx raw s).1]
    exact h
  · intro ctx raw rawn s h
    rw [(move_book_to_selection_number_frame ctx raw rawn s).1]
    exact h
  · intro ctx raw1 raw2 s h
    rw [(swap_frame ctx raw1 raw2 s).1]
    exact h
  · intro ctx s h
    exact (read_current_book_frame ctx s).2.2 h
  · intro ctx s h
    exact (read_entire_reading_list_frame ctx s).2 h
  · intro ctx s h
    exact (read_rest_of_reading_list_frame ctx s).2 h
  · intro ctx s h
    cases hr : rewind_reading_list ctx s with
    | exn s1 e =>
      have hf := rewind_frame ctx s
      rw [hr] at hf
      simp only [PyResult.stateOf, PyResult.isOk] at hf ⊢
      rw [hf.2.1 trivial]
      exact h
    | ok s1 u =>
      have hf := rewind_frame ctx s
      rw [hr] at hf
      simp only [PyResult.stateOf, PyResult.isOk] at hf ⊢
      rw [hf.2.2 trivial]

/-- Concrete instantiation of the amended C2: with the constant-1 provider
(which satisfies the contract for every positive bound), a random jump on
the 2-item state keeps the cursor at least 1, and so does a read (the
cursor wraps from 2 to 1). -/
theorem C2_witness :
    1 ≤ ((go_to_random_selection ctxAB stateAB).stateOf).current_selection_number ∧
    1 ≤ ((read_current_book ctxAB stateAB).stateOf).current_selection_number :=
  ⟨C2_amended_cursor_ge_one.2.2.2.2.2.2.2.2.2.2.2.1 ctxAB stateAB
      (fun n hn => by refine ⟨?_, ?_⟩ <;> simp only [ctxAB] <;> omega) (by decide),
   C2_amended_cursor_ge_one.2.2.2.2.2.2.2.2.2.2.2.2.2.2.2.2.1 ctxAB stateAB (by decide)⟩

/-!  Claim C7: helper lemmas. -/

/-- The cache layer preserves cache well-formedness in every outcome. -/
theorem _get_stateOf_cacheWF (ctx : Ctx) (a : Int) (s : ModelState)
    (hdb : DbWF ctx) (hwf : CacheWF s) :
    CacheWF ((_get_book_from_cache_or_db ctx a s).stateOf) := by
  cases hg : _get_book_from_cache_or_db ctx a s with
  | ok s' b =>
    simpa [PyResult.stateOf] using (_get_ok_id ctx a s s' b hwf hdb hg).2
  | exn s' e =>
    unfold _get_book_from_cache_or_db Books.get_book_by_id at hg
    simp only [PyResult.stateOf]
    cases hc : dictGet s.book_cache a with
    | some cached =>
      rw [hc] at hg
      simp only at hg
      by_cases hf : (dictGet s.ttl a).getD 0 > ctx.now
      · rw [if_pos hf] at hg; simp at hg
      · rw [if_neg hf] at hg
        simp only at hg
        cases hb : ctx.db a with
        | some bk => rw [hb] at hg; simp at hg
        | none =>
          rw [hb] at hg
          simp only [PyResult.exn.injEq] at hg
          rw [← hg.1]
          intro k b hk
          exact hwf k b hk
    | none =>
      rw [hc] at hg
      simp only at hg
      cases hb : ctx.db a with
      | some bk => rw [hb] at hg; simp at hg
      | none =>
        rw [hb] at hg
        simp only [PyResult.exn.injEq] at hg
        rw [← hg.1]
        intro k b hk
        exact hwf k b hk

/-- `validate_book_id` preserves cache well-formedness in every outcome. -/
theorem validate_book_id_stateOf_cacheWF (ctx : Ctx) (raw : Option Int) (chk : Bool)
    (s : ModelState) (hdb : DbWF ctx) (hwf : CacheWF s) :
    CacheWF ((validate_book_id ctx raw chk s).stateOf) := by
  unfold validate_book_id
  cases raw with
  | none => exact hwf
  | some bid =>
    simp only
    split
    · exact hwf
    · split
      · exact hwf
      · have h := _get_stateOf_cacheWF ctx bid s hdb hwf
        cases hg : _get_book_from_cache_or_db ctx bid s with
        | exn s1 e => rw [hg] at h; exact h
        | ok s1 b => rw [hg] at h; exact h

/-- Exchanging the entries at the first indices of two distinct members of
a duplicate-free list keeps it duplicate-free. -/
theorem nodup_swap_set (l : List Int) (a b : Int) (hnd : l.Nodup)
    (ha : a ∈ l) (hb : b ∈ l) (hne : a ≠ b) :
    ((l.set (l.indexOf a) (l.getD (l.indexOf b) 0)).set (l.indexOf b)
        (l.getD (l.indexOf a) 0)).Nodup := by
  have hia : l.indexOf a < l.length := List.indexOf_lt_length.mpr ha
  have hib : l.indexOf b < l.length := List.indexOf_lt_length.mpr hb
  have hga : l.getD (l.indexOf a) 0 = a := by
    rw [List.getD_eq_getElem l 0 hia]
    exact List.getElem_indexOf hia
  have hgb : l.getD (l.indexOf b) 0 = b := by
    rw [List.getD_eq_getElem l 0 hib]
    exact List.getElem_indexOf hib
  rw [hga, hgb]
  have hidx : l.indexOf a ≠ l.indexOf b := by
    intro hEq
    exact hne ((List.indexOf_inj ha hb).mp hEq)
  have hib2 : l.indexOf b < (l.set (l.indexOf a) b).length := by
    simpa using hib
  have hca : 0 < List.count a l := List.count_pos_iff.mpr ha
  have hcb : 0 < List.count b l := List.count_pos_iff.mpr hb
  rw [List.nodup_iff_count_le_one] at hnd ⊢
  intro x
  have hcx := hnd x
  rw [List.count_set a x _ _ hib2]
  rw [List.count_set b x l _ hia]
  have hsetb : (l.set (l.indexOf a) b)[l.indexOf b] = b := by
    rw [List.getElem_set_ne hidx]
    exact List.getElem_indexOf hib
  rw [hsetb]
  have hla : l[l.indexOf a] = a := List.getElem_indexOf hia
  rw [hla]
  by_cases hax : a = x
  · subst hax
    rw [if_pos (show ((a == a) = true) by simp)]
    rw [if_neg (show ¬ ((b == a) = true) by simp only [beq_iff_eq]; omega)]
    omega
  · by_cases hbx : b = x
    · subst hbx
      rw [if_pos (show ((b == b) = true) by simp)]
      rw [if_neg (show ¬ ((a == b) = true) by simp only [beq_iff_eq]; omega)]
      omega
    · rw [if_neg (show ¬ ((a == x) = true) by simp only [beq_iff_eq]; omega)]
      rw [if_neg (show ¬ ((b == x) = true) by simp only [beq_iff_eq]; omega)]
      omega

/-- C7: no id ever appears twice in the reading list: the initial list is
duplicate-free and every successful mutator (add — under store and cache
well-formedness, since it appends the fetched snapshot's id — removeById,
removeByPosition, clear, moveToBeginning, moveToEnd, moveToPosition, swap)
preserves pairwise-distinctness of the ids. -/
theorem C7_no_duplicate_ids :
    (∀ t : Nat, (initState t).reading_list.Nodup) ∧
    (∀ (ctx : Ctx) (raw : Option Int) (s s' : ModelState) (u : Unit),
        CacheWF s → DbWF ctx → s.reading_list.Nodup →
        add_book_to_reading_list ctx raw s = .ok s' u → s'.reading_list.Nodup) ∧
    (∀ (ctx : Ctx) (raw : Option Int) (s s' : ModelState) (u : Unit),
        s.reading_list.Nodup →
        remove_book_by_book_id ctx raw s = .ok s' u → s'.reading_list.Nodup) ∧
    (∀ (ctx : Ctx) (raw : Option Int) (s s' : ModelState) (u : Unit),
        s.reading_list.Nodup →
        remove_book_by_selection_number ctx raw s = .ok s' u →
          s'.reading_list.Nodup) ∧
    (∀ (ctx : Ctx) (s s' : ModelState) (u : Unit),
        clear_reading_list ctx s = .ok s' u → s'.reading_list.Nodup) ∧
    (∀ (ctx : Ctx) (raw : Option Int) (s s' : ModelState) (u : Unit),
        s.reading_list.Nodup →
        move_book_to_beginning ctx raw s = .ok s' u → s'.reading_list.Nodup) ∧
    (∀ (ctx : Ctx) (raw : Option Int) (s s' : ModelState) (u : Unit),
        s.reading_list.Nodup →
        move_book_to_end ctx raw s = .ok s' u → s'.reading_list.Nodup) ∧
    (∀ (ctx : Ctx) (raw rawn : Option Int) (s s' : ModelState) (u : Unit),
        s.reading_list.Nodup →
        move_book_to_selection_number ctx raw rawn s = .ok s' u →
          s'.reading_list.Nodup) ∧
    (∀ (ctx : Ctx) (raw1 raw2 : Option Int) (s s' : ModelState) (u : Unit),
        s.reading_list.Nodup →
        swap_books_in_reading_list ctx raw1 raw2 s = .ok s' u →
          s'.reading_list.Nodup) := by
  refine ⟨fun t => List.nodup_nil, ?_, ?_, ?_, ?_, ?_, ?_, ?_, ?_⟩
  · -- add
    intro ctx raw s s' u hwf hdb hnd h
    unfold add_book_to_reading_list at h
    cases hv : validate_book_id ctx raw false s with
    | exn s1 e => rw [hv] at h; simp at h
    | ok s1 bid =>
      rw [hv] at h
      simp only at h
      split at h
      · simp at h
      · rename_i hmem
        cases hg : _get_book_from_cache_or_db ctx bid s1 with
        | exn s2 e => rw [hg] at h; simp at h
        | ok s2 book =>
          rw [hg] at h
          simp only [PyResult.ok.injEq] at h
          obtain ⟨h1, -⟩ := h
          subst h1
          have hwf1 : CacheWF s1 := by
            have := validate_book_id_stateOf_cacheWF ctx raw false s hdb hwf
            rw [hv] at this
            exact this
          have hid := _get_ok_id ctx bid s1 s2 book hwf1 hdb hg
          have hf2 := _get_fields ctx bid s1
          rw [hg] at hf2
          simp only [PyResult.stateOf] at hf2
          have hf1 := validate_book_id_fields ctx raw false s
          rw [hv] at hf1
          simp only [PyResult.stateOf] at hf1
          simp only []
          refine List.Nodup.append ?_ (List.nodup_singleton _) ?_
          · rw [hf2.1, hf1.1]
            exact hnd
          · rw [List.disjoint_singleton, hid.1, hf2.1]
            exact hmem
  · -- removeById
    intro ctx raw s s' u hnd h
    unfold remove_book_by_book_id at h
    rcases check_if_empty_cases s with hc | hc <;> rw [hc] at h
    · simp only at h
      cases hv : validate_book_id ctx raw true s with
      | exn s1 e => rw [hv] at h; simp at h
      | ok s1 bid =>
        rw [hv] at h
        simp only at h
        split at h
        · simp at h
        · cases hlr : list_remove s1.reading_list bid with
          | none => rw [hlr] at h; simp at h
          | some l =>
            rw [hlr] at h
            simp only [PyResult.ok.injEq] at h
            obtain ⟨h1, -⟩ := h
            subst h1
            unfold list_remove at hlr
            split at hlr
            · simp only [Option.some.injEq] at hlr
              have hf1 := validate_book_id_fields ctx raw true s
              rw [hv] at hf1
              simp only [PyResult.stateOf] at hf1
              simp only []
              rw [← hlr]
              exact List.Nodup.erase bid (hf1.1 ▸ hnd)
            · simp at hlr
    · simp at h
  · -- removeByPosition
    intro ctx raw s s' u hnd h
    unfold remove_book_by_selection_number at h
    rcases check_if_empty_cases s with hc | hc <;> rw [hc] at h
    · simp only at h
      cases hv : validate_selection_number raw s with
      | exn s1 e => rw [hv] at h; simp at h
      | ok s1 n =>
        rw [hv] at h
        simp only [PyResult.ok.injEq] at h
        obtain ⟨h1, -⟩ := h
        subst h1
        have hs1 := validate_selection_number_stateOf raw s
        rw [hv] at hs1
        simp only [PyResult.stateOf] at hs1
        simp only []
        exact (List.eraseIdx_sublist _ _).nodup (hs1 ▸ hnd)
    · simp at h
  · -- clear
    intro ctx s s' u h
    unfold clear_reading_list at h
    rcases check_if_empty_cases s with hc | hc <;> rw [hc] at h <;>
      · simp only [PyResult.ok.injEq] at h
        obtain ⟨h1, -⟩ := h
        subst h1
        exact List.nodup_nil
  · -- moveToBeginning
    intro ctx raw s s' u hnd h
    unfold move_book_to_beginning at h
    rcases check_if_empty_cases s with hc | hc <;> rw [hc] at h
    · simp only at h
      cases hv : validate_book_id ctx raw true s with
      | exn s1 e => rw [hv] at h; simp at h
      | ok s1 bid =>
        rw [hv] at h
        simp only at h
        cases hlr : list_remove s1.reading_list bid with
        | none => rw [hlr] at h; simp at h
        | some l =>
          rw [hlr] at h
          simp only [PyResult.ok.injEq] at h
          obtain ⟨h1, -⟩ := h
          subst h1
          unfold list_remove at hlr
          split at hlr
          · simp only [Option.some.injEq] at hlr
            have hf1 := validate_book_id_fields ctx raw true s
            rw [hv] at hf1
            simp only [PyResult.stateOf] at hf1
            have hnd1 : s1.reading_list.Nodup := hf1.1 ▸ hnd
            simp only []
            rw [← hlr]
            refine List.nodup_cons.mpr ⟨?_, List.Nodup.erase bid hnd1⟩
            intro hmem2
            rw [List.Nodup.mem_erase_iff hnd1] at hmem2
            exact hmem2.1 rfl
          · simp at hlr
    · simp at h
  · -- moveToEnd
    intro ctx raw s s' u hnd h
    unfold move_book_to_end at h
    rcases check_if_empty_cases s with hc | hc <;> rw [hc] at h
    · simp only at h
      cases hv : validate_book_id ctx raw true s with
      | exn s1 e => rw [hv] at h; simp at h
      | ok s1 bid =>
        rw [hv] at h
        simp only at h
        cases hlr : list_remove s1.reading_list bid with
        | none => rw [hlr] at h; simp at h
        | some l =>
          rw [hlr] at h
          simp only [PyResult.ok.injEq] at h
          obtain ⟨h1, -⟩ := h
          subst h1
          unfold list_remove at hlr
          split at hlr
          · simp only [Option.some.injEq] at hlr
            have hf1 := validate_book_id_fields ctx raw true s
            rw [hv] at hf1
            simp only [PyResult.stateOf] at hf1
            have hnd1 : s1.reading_list.Nodup := hf1.1 ▸ hnd
            simp only []
            rw [← hlr]
            refine List.Nodup.append (List.Nodup.erase bid hnd1)
              (List.nodup_singleton _) ?_
            rw [List.disjoint_singleton, List.Nodup.mem_erase_iff hnd1]
            intro hmem2
            exact hmem2.1 rfl
          · simp at hlr
    · simp at h
  · -- moveToPosition
    intro ctx raw rawn s s' u hnd h
    unfold move_book_to_selection_number at h
    rcases check_if_empty_cases s with hc | hc <;> rw [hc] at h
    · simp only at h
      cases hv : validate_book_id ctx raw true s with
      | exn s1 e => rw [hv] at h; simp at h
      | ok s1 bid =>
        rw [hv] at h
        simp only at h
        cases hn : validate_selection_number rawn s1 with
        | exn s2 e => rw [hn] at h; simp at h
        | ok s2 n =>
          rw [hn] at h
          simp only at h
          cases hlr : list_remove s2.reading_list bid with
          | none => rw [hlr] at h; simp at h
          | some l =>
            rw [hlr] at h
            simp only [PyResult.ok.injEq] at h
            obtain ⟨h1, -⟩ := h
            subst h1
            unfold list_remove at hlr
            split at hlr
            · rename_i hmem
              simp only [Option.some.injEq] at hlr
              have hf1 := validate_book_id_fields ctx raw true s
              rw [hv] at hf1
              simp only [PyResult.stateOf] at hf1
              have hs2 := validate_selection_number_stateOf rawn s1
              rw [hn] at hs2
              simp only [PyResult.stateOf] at hs2
              have hnd2 : s2.reading_list.Nodup := by
                rw [hs2, hf1.1]
                exact hnd
              have hb := validate_selection_number_ok_bounds rawn s1 s2 n hn
              have hlen : (l.length : Int) = (s2.reading_list.length : Int) - 1 := by
                rw [← hlr]
                rw [List.length_erase_of_mem hmem]
                have : 1 ≤ s2.reading_list.length := List.length_pos.mpr
                  (by intro hxx; rw [hxx] at hmem; simp at hmem)
                push_cast
                omega
              have hbound : (n - 1).toNat ≤ l.length := by
                have h1 := hb.2.2.1
                have h2 := hb.2.2.2
                rw [hs2] at hlen
                omega
              simp only []
              have hperm := List.perm_insertIdx bid l hbound
              refine hperm.symm.nodup ?_
              refine List.nodup_cons.mpr ⟨?_, ?_⟩
              · rw [← hlr, List.Nodup.mem_erase_iff hnd2]
                intro hmem2
                exact hmem2.1 rfl
              · rw [← hlr]
                exact List.Nodup.erase bid hnd2
            · simp at hlr
    · simp at h
  · -- swap
    intro ctx raw1 raw2 s s' u hnd h
    unfold swap_books_in_reading_list at h
    rcases check_if_empty_cases s with hc | hc <;> rw [hc] at h
    · simp only at h
      cases hv1 : validate_book_id ctx raw1 true s with
      | exn s1 e => rw [hv1] at h; simp at h
      | ok s1 b1 =>
        rw [hv1] at h
        simp only at h
        cases hv2 : validate_book_id ctx raw2 true s1 with
        | exn s2 e => rw [hv2] at h; simp at h
        | ok s2 b2 =>
          rw [hv2] at h
          simp only at h
          split at h
          · simp at h
          · rename_i hne12
            simp only [PyResult.ok.injEq] at h
            obtain ⟨h1, -⟩ := h
            subst h1
            have hf1 := validate_book_id_fields ctx raw1 true s
            rw [hv1] at hf1
            simp only [PyResult.stateOf] at hf1
            have hf2 := validate_book_id_fields ctx raw2 true s1
            rw [hv2] at hf2
            simp only [PyResult.stateOf] at hf2
            have hm1 : b1 ∈ s2.reading_list := by
              rw [hf2.1, hf1.1]
              exact (validate_book_id_ok ctx raw1 true s s1 b1 hv1).2.2 rfl
            have hm2 : b2 ∈ s2.reading_list := by
              rw [hf2.1]
              exact (validate_book_id_ok ctx raw2 true s1 s2 b2 hv2).2.2 rfl
            have hnd2 : s2.reading_list.Nodup := by
              rw [hf2.1, hf1.1]
              exact hnd
            simp only []
            exact nodup_swap_set s2.reading_list b1 b2 hnd2 hm1 hm2 hne12
    · simp at h

/-- The two-book store is well-formed: each snapshot carries its key. -/
theorem dbAB_wf : DbWF ctxAB := by
  intro k b hk
  simp only [ctxAB, dbAB] at hk
  split at hk
  · rename_i hk1
    cases hk
    simp [bookA, hk1]
  · split at hk
    · rename_i hk2
      cases hk
      simp [bookB, hk2]
    · cases hk

/-- Concrete instantiation of C7: swapping books 1 and 2 of the 2-item
collection yields the duplicate-free list [2, 1]. -/
theorem C7_witness :
    ({ current_selection_number := 2, reading_list := [2, 1],
       book_cache := [(2, bookB), (1, bookA)], ttl := [(2, 1060), (1, 1060)],
       ttl_seconds := 60, dbFetches := [1, 2], readIncrements := [] } :
      ModelState).reading_list.Nodup :=
  C7_no_duplicate_ids.2.2.2.2.2.2.2.2 ctxAB (some 1) (some 2) stateAB
    { current_selection_number := 2, reading_list := [2, 1],
      book_cache := [(2, bookB), (1, bookA)], ttl := [(2, 1060), (1, 1060)],
      ttl_seconds := 60, dbFetches := [1, 2], readIncrements := [] } ()
    (by decide) (by decide)

/-!  Claim C4: success specifications of the sequential reader. -/

/-- With an in-range selection number and a store that resolves every
listed id, `get_book_by_selection_number` succeeds and returns the snapshot
whose id sits at position `n` (1-indexed), mutating only the cache. -/
theorem get_book_by_selection_number_ok (ctx : Ctx) (s : ModelState) (n : Int)
    (hdb : DbWF ctx) (hwf : CacheWF s) (hne : s.reading_list ≠ [])
    (h1 : 1 ≤ n) (h2 : n ≤ (s.reading_list.length : Int))
    (hres : ∀ id ∈ s.reading_list, (ctx.db id).isSome = true) :
    ∃ s' b, get_book_by_selection_number ctx (some n) s = .ok s' b ∧
      s'.reading_list = s.reading_list ∧
      s'.current_selection_number = s.current_selection_number ∧
      s'.readIncrements = s.readIncrements ∧
      s'.ttl_seconds = s.ttl_seconds ∧
      b.id = s.reading_list.getD (n - 1).toNat 0 ∧
      CacheWF s' := by
  unfold get_book_by_selection_number
  have hc : check_if_empty s = .ok s () := by
    unfold check_if_empty
    rw [if_neg hne]
  rw [hc]
  simp only
  have hval : validate_selection_number (some n) s = .ok s n := by
    unfold validate_selection_number
    simp only
    rw [if_pos ⟨h1, h2⟩]
  rw [hval]
  simp only
  have hidx : (n - 1).toNat < s.reading_list.length := by omega
  have hmem : s.reading_list.getD (n - 1).toNat 0 ∈ s.reading_list := by
    rw [List.getD_eq_getElem s.reading_list 0 hidx]
    exact List.getElem_mem hidx
  obtain ⟨s', b, hg⟩ := _get_ok_of_db ctx _ s (hres _ hmem)
  rw [hg]
  have hid := _get_ok_id ctx _ s s' b hwf hdb hg
  have hf := _get_fields ctx (s.reading_list.getD (n - 1).toNat 0) s
  rw [hg] at hf
  simp only [PyResult.stateOf] at hf
  exact ⟨s', b, rfl, hf.1, hf.2.1, hf.2.2.2, hf.2.2.1, hid.1, hid.2⟩

/-- With an in-range cursor and a fully resolvable list,
`read_current_book` succeeds: it appends exactly the id at the cursor to
the increment log and advances the cursor circularly. -/
theorem read_current_book_ok (ctx : Ctx) (s : ModelState)
    (hdb : DbWF ctx) (hwf : CacheWF s) (hne : s.reading_list ≠ [])
    (h1 : 1 ≤ s.current_selection_number)
    (h2 : s.current_selection_number ≤ (s.reading_list.length : Int))
    (hres : ∀ id ∈ s.reading_list, (ctx.db id).isSome = true) :
    ∃ s', read_current_book ctx s = .ok s' () ∧
      s'.reading_list = s.reading_list ∧
      s'.readIncrements = s.readIncrements ++
        [s.reading_list.getD (s.current_selection_number - 1).toNat 0] ∧
      s'.current_selection_number =
        s.current_selection_number % (s.reading_list.length : Int) + 1 ∧
      CacheWF s' := by
  unfold read_current_book
  have hc : check_if_empty s = .ok s () := by
    unfold check_if_empty
    rw [if_neg hne]
  rw [hc]
  simp only
  obtain ⟨s2, b, hg, hl, hcur, hinc, httl, hid, hwf2⟩ :=
    get_book_by_selection_number_ok ctx s s.current_selection_number
      hdb hwf hne h1 h2 hres
  rw [hg]
  simp only [update_read_count]
  refine ⟨_, rfl, hl, ?_, ?_, ?_⟩
  · rw [hinc, hid]
  · rw [hcur, hl]
  · intro k bb hk
    exact hwf2 k bb hk

/-- `read_loop` over a fully resolvable list: starting at an in-range
cursor `c` and running `k ≤ length - c + 1` iterations succeeds, increments
exactly the `k` ids from position `c` on, in order, and leaves the cursor
at `c + k`, wrapped to 1 when the run reaches the end of the list. -/
theorem read_loop_ok (ctx : Ctx) (hdb : DbWF ctx) :
    ∀ (k : Nat) (s : ModelState),
    CacheWF s → s.reading_list ≠ [] →
    1 ≤ s.current_selection_number →
    s.current_selection_number ≤ (s.reading_list.length : Int) →
    (k : Int) ≤ (s.reading_list.length : Int) - s.current_selection_number + 1 →
    (∀ id ∈ s.reading_list, (ctx.db id).isSome = true) →
    ∃ s', read_loop ctx k s = .ok s' () ∧
      s'.reading_list = s.reading_list ∧
      s'.readIncrements = s.readIncrements ++
        ((s.reading_list.drop (s.current_selection_number - 1).toNat).take k) ∧
      s'.current_selection_number =
        (if (k : Int) = (s.reading_list.length : Int) - s.current_selection_number + 1
          then 1 else s.current_selection_number + k) ∧
      CacheWF s' := by
  intro k
  induction k with
  | zero =>
    intro s hwf hne h1 h2 hk hres
    refine ⟨s, rfl, rfl, by simp, ?_, hwf⟩
    rw [if_neg (by omega)]
    simp
  | succ k' ih =>
    intro s hwf hne h1 h2 hk hres
    obtain ⟨s1, hr, hl1, hinc1, hcur1, hwf1⟩ :=
      read_current_book_ok ctx s hdb hwf hne h1 h2 hres
    unfold read_loop
    rw [hr]
    simp only
    have hlenpos : 0 < s.reading_list.length := List.length_pos.mpr hne
    have hkcast : ((k' + 1 : Nat) : Int) = (k' : Int) + 1 := by push_cast; ring
    have hidx : (s.current_selection_number - 1).toNat < s.reading_list.length := by
      omega
    have hdropc : s.reading_list.drop (s.current_selection_number - 1).toNat =
        s.reading_list.getD (s.current_selection_number - 1).toNat 0 ::
          s.reading_list.drop ((s.current_selection_number - 1).toNat + 1) := by
      rw [List.getD_eq_getElem s.reading_list 0 hidx]
      exact List.drop_eq_getElem_cons hidx
    by_cases hcend : s.current_selection_number = (s.reading_list.length : Int)
    · have hk0 : k' = 0 := by omega
      subst hk0
      refine ⟨s1, rfl, hl1, ?_, ?_, hwf1⟩
      · rw [hinc1, hdropc, List.take_succ_cons, List.take_zero]
      · rw [hcur1, hcend, Int.emod_self]
        split_ifs <;> omega
    · have hclt : s.current_selection_number < (s.reading_list.length : Int) := by
        omega
      have hcur1' : s1.current_selection_number = s.current_selection_number + 1 := by
        rw [hcur1, Int.emod_eq_of_lt (by omega) hclt]
      have hne1 : s1.reading_list ≠ [] := by rw [hl1]; exact hne
      have hres1 : ∀ id ∈ s1.reading_list, (ctx.db id).isSome = true := by
        rw [hl1]; exact hres
      obtain ⟨s', hloop, hl', hinc', hcur', hwf'⟩ := ih s1 hwf1 hne1
        (by omega) (by rw [hcur1', hl1]; omega) (by rw [hcur1', hl1]; omega) hres1
      refine ⟨s', hloop, hl'.trans hl1, ?_, ?_, hwf'⟩
      · rw [hinc', hinc1, hl1, hcur1']
        rw [List.append_assoc]
        congr 1
        have : (s.current_selection_number + 1 - 1).toNat =
            (s.current_selection_number - 1).toNat + 1 := by omega
        rw [this, hdropc, List.take_succ_cons]
        simp
      · rw [hcur', hcur1', hl1]
        split_ifs <;> omega

/-- C4: `read_entire_reading_list` on a non-empty, fully resolvable list
first resets the cursor to 1, then reads `length` times: each listed id has
its read count incremented exactly once (the increment log grows by exactly
the list, in order; under no-duplicates each id's count rises by one) and
the cursor is back at 1 on return. -/
theorem C4_read_entire_spec (ctx : Ctx) (s : ModelState)
    (hdb : DbWF ctx) (hwf : CacheWF s) (hne : s.reading_list ≠ [])
    (hres : ∀ id ∈ s.reading_list, (ctx.db id).isSome = true) :
    ∃ s', read_entire_reading_list ctx s = .ok s' () ∧
      s'.reading_list = s.reading_list ∧
      s'.current_selection_number = 1 ∧
      s'.readIncrements = s.readIncrements ++ s.reading_list ∧
      (s.reading_list.Nodup → ∀ id ∈ s.reading_list,
        s'.readIncrements.count id = s.readIncrements.count id + 1) := by
  unfold read_entire_reading_list
  have hc : check_if_empty s = .ok s () := by
    unfold check_if_empty
    rw [if_neg hne]
  rw [hc]
  simp only
  have hlenpos : 0 < s.reading_list.length := List.length_pos.mpr hne
  obtain ⟨s', hloop, hl', hinc', hcur', hwf'⟩ := read_loop_ok ctx hdb
    s.reading_list.length { s with current_selection_number := 1 }
    (fun k b hk => hwf k b hk) hne (by simp) (by simp; omega) (by simp) hres
  dsimp only at hl' hinc' hcur'
  have h0 : ((1 : Int) - 1).toNat = 0 := rfl
  refine ⟨s', hloop, hl', ?_, ?_, ?_⟩
  · rw [hcur']
    split_ifs <;> omega
  · rw [hinc', h0, List.drop_zero, List.take_length]
  · intro hnd id hid
    rw [hinc', h0, List.drop_zero, List.take_length, List.count_append,
      List.count_eq_one_of_mem hnd hid]

/-- Concrete instantiation of C4: reading the whole 2-book list from
cursor 2 increments each of the ids 1 and 2 exactly once and returns the
cursor to 1. -/
theorem C4_witness :
    ∃ s', read_entire_reading_list ctxAB stateAB = .ok s' () ∧
      s'.reading_list = stateAB.reading_list ∧
      s'.current_selection_number = 1 ∧
      s'.readIncrements = stateAB.readIncrements ++ stateAB.reading_list ∧
      (stateAB.reading_list.Nodup → ∀ id ∈ stateAB.reading_list,
        s'.readIncrements.count id = stateAB.readIncrements.count id + 1) :=
  C4_read_entire_spec ctxAB stateAB dbAB_wf
    (by intro k b hk; simp [dictGet, stateAB] at hk)
    (by decide) (by decide)

end ReadingList

